import Mathlib

/-!
Verification of the printer-bridge core: command model, the ESC/POS buffer
renderer (src/formatters/ntpToEscposBufferFormatter.js), the live TCP renderer
(src/printing/tcpIpPrinter.js), the structured-payload (Plick) mapper
(src/formatters/ntpToPlickFormatter.js), printer discovery and identity
resolution (src/print-discovery.js, src/electron-main.js and its revisions),
the connection prober (testPrinterConnection), and the dispatch lookup
(src/services/printService.js, src/api/routes/printRoutes.js).

JavaScript dynamics are embedded explicitly: optional object fields become
Option, JS truthiness tests become jsTruthyS / jsTruthyI, the pattern
"parseInt(x, 10) || d" becomes jsOrInt, "a || b" selection on strings becomes
jsSelect, and String(undefined) becomes the literal "undefined".
-/

namespace PosBridge


/-- JS truthiness of a possibly-absent string: undefined and "" are falsy. -/
def jsTruthyS : Option String → Bool
  | none => false
  | some s => s != ""

/-- JS truthiness of a possibly-absent number: undefined and 0 are falsy. -/
def jsTruthyI : Option Int → Bool
  | none => false
  | some n => n != 0

/-- Embeds "parseInt(x, 10) || d": an absent field or NaN parse gives d, a
parsed 0 gives d, anything else gives the parsed value. -/
def jsOrInt (v : Option Int) (d : Int) : Int :=
  match v with
  | none => d
  | some n => if n == 0 then d else n

/-- Embeds "String(a || b)" where an undefined b prints as "undefined". -/
def jsSelectU (a b : Option String) : String :=
  if jsTruthyS a then a.getD ""
  else
    match b with
    | some s => s
    | none => "undefined"

/-- Embeds "String(a || b || c)" (with "" as final value when all falsy). -/
def jsSelect2 (a b : Option String) : String :=
  if jsTruthyS a then a.getD "" else if jsTruthyS b then b.getD "" else ""

/-- Embeds "String(a || b || c || d)" over three optional fields. -/
def jsSelect3 (a b c : Option String) : String :=
  if jsTruthyS a then a.getD "" else jsSelect2 b c

/-- Character-list prefix test, auxiliary for the substring test. -/
def charListHasPrefix : List Char → List Char → Bool
  | [], _ => true
  | _ :: _, [] => false
  | a :: as, b :: bs => a == b && charListHasPrefix as bs

/-- Character-list substring test, auxiliary for strIncludes. -/
def charListIncludes (needle : List Char) : List Char → Bool
  | [] => needle.isEmpty
  | c :: t => charListHasPrefix needle (c :: t) || charListIncludes needle t

/-- Embeds the JS "s.includes(sub)" substring test. -/
def strIncludes (s sub : String) : Bool :=
  charListIncludes sub.data s.data

/-- Lower-casing on the character list (kernel-reducible toLowerCase). -/
def strLower (s : String) : String :=
  ⟨s.data.map Char.toLower⟩

/-- Upper-casing on the character list (kernel-reducible toUpperCase). -/
def strUpper (s : String) : String :=
  ⟨s.data.map Char.toUpper⟩

/-- The command-entry wire object: one element of the printDataArray /
ntpCommands input. Every field is optional, as in the JSON wire shape. -/
structure Cmd where
  type : Option String := none
  align : Option String := none
  style : Option String := none
  size : Option (List Int) := none
  content : Option String := none
  text : Option String := none
  value : Option String := none
  lines : Option Int := none
  mode : Option String := none
  n : Option Int := none
  t : Option Int := none
  path : Option String := none
  buffer : Option String := none
  data : Option (List (List String)) := none
  barcodeType : Option Int := none
  height : Option Int := none
  width : Option Int := none
  hriPos : Option Int := none
  hriFont : Option Int := none
  cellSize : Option Int := none
  correction : Option String := none
  model : Option Int := none
  deriving DecidableEq

/-- Embeds "cmd.type?.toLowerCase()". -/
def typeLower (c : Cmd) : Option String :=
  c.type.map strLower

/-- Cut mode of the node-thermal-printer cut instruction. -/
inductive CutMode
  | part
  | full
  deriving DecidableEq

/-- One node-thermal-printer method call, recorded as an abstract instruction.
The byte buffer returned by getBuffer / streamed by execute is exactly this
sequence, encoder-rendered; the encoder is the external library. -/
inductive Instr
  | align (a : String)
  | setTextNormal
  | bold (b : Bool)
  | underline (b : Bool)
  | underlineThick (b : Bool)
  | invert (b : Bool)
  | setTextSize (w h : Int)
  | print (s : String)
  | println (s : String)
  | feed (n : Int)
  | cut (m : CutMode)
  | beep (n t : Int)
  | barcode (v : String) (bt h w hriPos hriFont : Int)
  | qr (v : String) (cellSize : Int) (corr : String) (model : Int)
  | image (path : String)
  | imageBuffer (buf : String)
  | drawLine
  | raw (content : String)
  | tableCustom (rows : List (List String))
  deriving DecidableEq

/-- The instruction sequence emitted by resetStylesNTP (both renderers):
align("LT"), setTextNormal(), bold(false), underline(false),
underlineThick(false), invert(false). -/
def resetInstrs : List Instr :=
  [Instr.align "LT", Instr.setTextNormal, Instr.bold false,
   Instr.underline false, Instr.underlineThick false, Instr.invert false]

/-- Embeds the per-command alignment default: cmd.align ? upper : "LT". -/
def alignOfCmd (c : Cmd) : String :=
  if jsTruthyS c.align then strUpper (c.align.getD "") else "LT"

/-- Style-flag instruction emission for a style string: B, then U2 else U,
then I, in source order. -/
def styleFlagInstrs (s : String) : List Instr :=
  (if strIncludes s "B" then [Instr.bold true] else []) ++
  (if strIncludes s "U2" then [Instr.underlineThick true]
   else if strIncludes s "U" then [Instr.underline true] else []) ++
  (if strIncludes s "I" then [Instr.invert true] else [])

/-- Embeds "if (cmd.style) { ...flag calls... }". -/
def styleInstrsOf (c : Cmd) : List Instr :=
  if jsTruthyS c.style then styleFlagInstrs (c.style.getD "") else []

/-- Embeds "if (cmd.size && Array.isArray && length === 2)
setTextSize(max(0, w-1), max(0, h-1))". -/
def sizeInstrsOf (c : Cmd) : List Instr :=
  match c.size with
  | some [w, h] => [Instr.setTextSize (max 0 (w - 1)) (max 0 (h - 1))]
  | _ => []

/-- Embeds the standalone align case: "if (cmd.align) ntp.align(upper)". -/
def alignCaseInstrs (c : Cmd) : List Instr :=
  if jsTruthyS c.align then [Instr.align (strUpper (c.align.getD ""))] else []

/-- Embeds "cmd.correction || \"M\"". -/
def corrOfCmd (c : Cmd) : String :=
  if jsTruthyS c.correction then c.correction.getD "" else "M"

/-- Barcode emission shared by both NTP renderers. -/
def barcodeInstrsOf (c : Cmd) : List Instr :=
  [Instr.align (alignOfCmd c),
   Instr.barcode (jsSelectU c.content c.value) (jsOrInt c.barcodeType 73)
     (jsOrInt c.height 50) (jsOrInt c.width 2) (jsOrInt c.hriPos 0)
     (jsOrInt c.hriFont 0)]

/-- QR emission shared by both NTP renderers. -/
def qrInstrsOf (c : Cmd) : List Instr :=
  [Instr.align (alignOfCmd c),
   Instr.qr (jsSelectU c.content c.value) (jsOrInt c.cellSize 3) (corrOfCmd c)
     (jsOrInt c.model 2)]

/-- Image emission (success path of printImage; a read failure would print a
placeholder instead, which also leaves the style state untouched). -/
def imageInstrsOf (c : Cmd) : List Instr :=
  Instr.align (alignOfCmd c) ::
    (if jsTruthyS c.path then [Instr.image (c.path.getD "")]
     else [Instr.println "[NoImgPath]"])

/-- Image-buffer emission (success path of printImageBuffer). -/
def imageBufferInstrsOf (c : Cmd) : List Instr :=
  Instr.align (alignOfCmd c) ::
    (if jsTruthyS c.buffer then [Instr.imageBuffer (c.buffer.getD "")]
     else [Instr.println "[NoImgBuff]"])

/-- Text/println emission of the buffer renderer (cases "text" and "println"
both call ntp.println with String(cmd.content || cmd.text || "")). -/
def escposTextInstrs (c : Cmd) : List Instr :=
  Instr.align (alignOfCmd c) :: styleInstrsOf c ++ sizeInstrsOf c ++
    [Instr.println (jsSelect2 c.content c.text)]

/-- Cut emission: partial unless cmd.mode === "FULL". -/
def cutInstrsOf (c : Cmd) : List Instr :=
  [Instr.cut (if c.mode == some "FULL" then CutMode.full else CutMode.part)]

/-- Raw emission: the opaque escape bytes of String(cmd.content || ""). -/
def rawInstrsOf (c : Cmd) : List Instr :=
  [Instr.raw (if jsTruthyS c.content then c.content.getD "" else "")]

/-- Table emission of the buffer renderer: only when cmd.data is an array. -/
def tableInstrsOf (c : Cmd) : List Instr :=
  match c.data with
  | some rows => [Instr.tableCustom rows]
  | none => []

/-- The switch body of generatePrintBufferNTP for one command, written as the
sequential comparisons a JS switch performs on cmd.type?.toLowerCase(). -/
def escposCmdInstrs (c : Cmd) : List Instr :=
  if typeLower c == some "text" || typeLower c == some "println" then
    escposTextInstrs c
  else if typeLower c == some "feed" then [Instr.feed (jsOrInt c.lines 1)]
  else if typeLower c == some "cut" then cutInstrsOf c
  else if typeLower c == some "beep" then
    [Instr.beep (jsOrInt c.n 1) (jsOrInt c.t 100)]
  else if typeLower c == some "align" then alignCaseInstrs c
  else if typeLower c == some "setstyles" then
    alignCaseInstrs c ++ styleInstrsOf c ++ sizeInstrsOf c
  else if typeLower c == some "resetstyles" then resetInstrs
  else if typeLower c == some "barcode" then barcodeInstrsOf c
  else if typeLower c == some "qr" then qrInstrsOf c
  else if typeLower c == some "image" then imageInstrsOf c
  else if typeLower c == some "imagebuffer" then imageBufferInstrsOf c
  else if typeLower c == some "drawline" then [Instr.drawLine]
  else if typeLower c == some "raw" then rawInstrsOf c
  else if typeLower c == some "tablecustom" then tableInstrsOf c
  else []

/-- Reset condition of the buffer renderer: reset before every command whose
lowercased type is not "setstyles" and not "resetstyles" (an absent type also
resets). -/
def escposResetCond (c : Cmd) : Bool :=
  typeLower c != some "setstyles" && typeLower c != some "resetstyles"

/-- One loop iteration of generatePrintBufferNTP: conditional reset, then the
switch body. -/
def escposEntryInstrs (c : Cmd) : List Instr :=
  (if escposResetCond c then resetInstrs else []) ++ escposCmdInstrs c

/-- Recognized printer options of the renderers (type and characterSet select
the external encoder and do not alter the instruction sequence). -/
structure NtpOptions where
  initialAlign : Option String := none
  deriving DecidableEq

/-- Embeds "if (printerOptions?.initialAlign) ntp.align(upper)". -/
def initAlignInstrs (o : NtpOptions) : List Instr :=
  if jsTruthyS o.initialAlign then
    [Instr.align (strUpper (o.initialAlign.getD ""))]
  else []

/-- Embeds "printDataArray.some((cmd) => cmd.type?.toLowerCase() === \"cut\")". -/
def hasCutCmd (cmds : List Cmd) : Bool :=
  cmds.any (fun c => typeLower c == some "cut")

/-- The ESC/POS buffer renderer generatePrintBufferNTP
(src/formatters/ntpToEscposBufferFormatter.js, lines 13-199): optional initial
align, the command loop, a final style reset, and a default partial cut when
the sequence contains no cut command. -/
def generatePrintBufferNTP (cmds : List Cmd) (opts : NtpOptions) : List Instr :=
  initAlignInstrs opts ++ (cmds.map escposEntryInstrs).flatten ++ resetInstrs ++
    (if hasCutCmd cmds then [] else [Instr.cut CutMode.part])

/-- Text emission of the TCP renderer, case "text": ntpLan.print with
String(cmd.content || cmd.text || cmd.value || ""), no newline. -/
def tcpTextInstrs (c : Cmd) : List Instr :=
  Instr.align (alignOfCmd c) :: styleInstrsOf c ++ sizeInstrsOf c ++
    [Instr.print (jsSelect3 c.content c.text c.value)]

/-- Text emission of the TCP renderer, case "println". -/
def tcpPrintlnInstrs (c : Cmd) : List Instr :=
  Instr.align (alignOfCmd c) :: styleInstrsOf c ++ sizeInstrsOf c ++
    [Instr.println (jsSelect3 c.content c.text c.value)]

/-- Table emission of the TCP renderer: a missing data array prints the
placeholder "[NoTableData]" (unlike the buffer renderer, which emits
nothing). -/
def tcpTableInstrsOf (c : Cmd) : List Instr :=
  match c.data with
  | some rows => [Instr.tableCustom rows]
  | none => [Instr.println "[NoTableData]"]

/-- The switch body of printViaTcpIp for one command
(src/printing/tcpIpPrinter.js, lines 77-244), as sequential comparisons. -/
def tcpCmdInstrs (c : Cmd) : List Instr :=
  if typeLower c == some "text" then tcpTextInstrs c
  else if typeLower c == some "println" then tcpPrintlnInstrs c
  else if typeLower c == some "feed" then [Instr.feed (jsOrInt c.lines 1)]
  else if typeLower c == some "cut" then cutInstrsOf c
  else if typeLower c == some "beep" then
    [Instr.beep (jsOrInt c.n 1) (jsOrInt c.t 100)]
  else if typeLower c == some "align" then alignCaseInstrs c
  else if typeLower c == some "setstyles" then
    alignCaseInstrs c ++ styleInstrsOf c ++ sizeInstrsOf c
  else if typeLower c == some "resetstyles" then resetInstrs
  else if typeLower c == some "barcode" then barcodeInstrsOf c
  else if typeLower c == some "qr" then qrInstrsOf c
  else if typeLower c == some "image" then imageInstrsOf c
  else if typeLower c == some "imagebuffer" then imageBufferInstrsOf c
  else if typeLower c == some "drawline" then [Instr.drawLine]
  else if typeLower c == some "raw" then rawInstrsOf c
  else if typeLower c == some "tablecustom" then tcpTableInstrsOf c
  else []

/-- Reset condition of the TCP renderer: unlike the buffer renderer it also
exempts the standalone "align" command (tcpIpPrinter.js, lines 68-74). -/
def tcpResetCond (c : Cmd) : Bool :=
  typeLower c != some "setstyles" && typeLower c != some "resetstyles" &&
    typeLower c != some "align"

/-- One loop iteration of printViaTcpIp. -/
def tcpEntryInstrs (c : Cmd) : List Instr :=
  (if tcpResetCond c then resetInstrs else []) ++ tcpCmdInstrs c

/-- The full instruction sequence streamed by printViaTcpIp once connected:
optional initial align, the command loop, final style reset, default cut
(ntpLan.cut() with the partial default) when no cut command is present. -/
def tcpStream (cmds : List Cmd) (opts : NtpOptions) : List Instr :=
  initAlignInstrs opts ++ (cmds.map tcpEntryInstrs).flatten ++ resetInstrs ++
    (if hasCutCmd cmds then [] else [Instr.cut CutMode.part])

/-- Target configuration consumed by printViaTcpIp. -/
structure TcpConfig where
  name : String := ""
  ip : Option String := none
  port : Option Int := none
  deriving DecidableEq

/-- Transport environment of one TCP print call: the isPrinterConnected probe
result and the execute() outcome. -/
structure TcpEnv where
  connected : Bool := true
  executeOk : Bool := true
  deriving DecidableEq

/-- The live TCP renderer printViaTcpIp (src/printing/tcpIpPrinter.js,
lines 12-270): rejects a configuration missing ip or port, rejects an
unreachable printer, otherwise streams tcpStream; an execute failure is
rethrown. On success the value is the streamed instruction sequence. -/
def printViaTcpIp (env : TcpEnv) (cmds : List Cmd) (cfg : TcpConfig)
    (opts : NtpOptions) : Except String (List Instr) :=
  if !(jsTruthyS cfg.ip) || !(jsTruthyI cfg.port) then
    Except.error "TCP/IP printer configuration missing IP address or port."
  else if !env.connected then
    Except.error ("Failed to connect to printer " ++ cfg.name)
  else if !env.executeOk then
    Except.error ("Direct TCP print execution failed for " ++ cfg.name)
  else
    Except.ok (tcpStream cmds opts)

/-- The style accumulator of a node-thermal-printer instance (and of the
physical device interpreting the encoded buffer). -/
structure StyleState where
  alignSt : String
  boldSt : Bool
  underlineSt : Bool
  underlineThickSt : Bool
  invertSt : Bool
  sizeW : Int
  sizeH : Int
  deriving DecidableEq

/-- Default style: left-aligned, no emphasis, normal (1x) size. -/
def defaultStyle : StyleState :=
  { alignSt := "LT", boldSt := false, underlineSt := false,
    underlineThickSt := false, invertSt := false, sizeW := 0, sizeH := 0 }

/-- Effect of one instruction on the style accumulator; visible instructions
and raw bytes leave the tracked state unchanged (raw is opaque here, and every
visible entry is preceded by an explicit reset anyway). -/
def stepStyle (st : StyleState) : Instr → StyleState
  | Instr.align a => { st with alignSt := a }
  | Instr.setTextNormal => { st with sizeW := 0, sizeH := 0 }
  | Instr.bold b => { st with boldSt := b }
  | Instr.underline b => { st with underlineSt := b }
  | Instr.underlineThick b => { st with underlineThickSt := b }
  | Instr.invert b => { st with invertSt := b }
  | Instr.setTextSize w h => { st with sizeW := w, sizeH := h }
  | _ => st

/-- Folds the style effect of an instruction sequence. -/
def applyInstrs (st : StyleState) (l : List Instr) : StyleState :=
  l.foldl stepStyle st

/-- The visible text items of an instruction sequence, each paired with the
style state in force when it is emitted. -/
def renderedTexts (st : StyleState) : List Instr → List (String × StyleState)
  | [] => []
  | Instr.print s :: rest => (s, st) :: renderedTexts st rest
  | Instr.println s :: rest => (s, st) :: renderedTexts st rest
  | i :: rest => renderedTexts (stepStyle st i) rest

/-- Recognizer of cut instructions. -/
def isCutInstr : Instr → Bool :=
  fun i => match i with | Instr.cut _ => true | _ => false

/-- Counts the cut instructions of a sequence. -/
def countCuts (l : List Instr) : Nat :=
  l.countP isCutInstr

/-- The style accumulator at the moment the switch body of entry i of the
buffer renderer runs: initial align, all earlier loop iterations, then the
conditional reset of entry i itself. -/
def escposStyleAtEntry (cmds : List Cmd) (opts : NtpOptions) (i : Nat)
    (h : i < cmds.length) : StyleState :=
  applyInstrs defaultStyle
    (initAlignInstrs opts ++ ((cmds.take i).map escposEntryInstrs).flatten ++
      (if escposResetCond (cmds.get ⟨i, h⟩) then resetInstrs else []))

/-- The style accumulator at the moment the switch body of entry i of the TCP
renderer runs. -/
def tcpStyleAtEntry (cmds : List Cmd) (opts : NtpOptions) (i : Nat)
    (h : i < cmds.length) : StyleState :=
  applyInstrs defaultStyle
    (initAlignInstrs opts ++ ((cmds.take i).map tcpEntryInstrs).flatten ++
      (if tcpResetCond (cmds.get ⟨i, h⟩) then resetInstrs else []))

/-- The three-entry sequence of the style-reset-boundary example:
SetStyle(bold), Text("x"), Text("y"). -/
def setStyleBoldCmd : Cmd := { type := some "setstyles", style := some "B" }

/-- Text entry with content "x". -/
def textXCmd : Cmd := { type := some "text", content := some "x" }

/-- Text entry with content "y". -/
def textYCmd : Cmd := { type := some "text", content := some "y" }

/-- The command sequence [SetStyle(bold), Text("x"), Text("y")]. -/
def styleBoundaryCmds : List Cmd := [setStyleBoldCmd, textXCmd, textYCmd]

/-- A one-entry sequence without a cut command. -/
def noCutCmds : List Cmd := [textXCmd]

/-- A sequence that contains an explicit cut command. -/
def withCutCmds : List Cmd := [textXCmd, { type := some "cut" }]

/-- Environment with a reachable printer and a successful execute. -/
def tcpOkEnv : TcpEnv := {}

/-- TCP target configuration with an ip and a port. -/
def tcpOkCfg : TcpConfig :=
  { name := "LanPrinter", ip := some "192.168.0.9", port := some 9100 }

/-- Style object attached to Plick elements (only the fields the mapper ever
writes). -/
structure PlickStyle where
  fontWeight : Option String := none
  textDecoration : Option String := none
  textAlign : Option String := none
  fontSize : Option String := none
  deriving DecidableEq

/-- One element of the structured Plick payload; the constructor name is the
value of the type field of the emitted object. -/
inductive PlickElem
  | text (value : String) (style : Option PlickStyle)
  | barCode (value : String) (height width : Int) (displayValue : Bool)
      (position : String)
  | qrCode (value : String) (height width : Int) (position : String)
      (correctionLevel : String)
  | image (src : String) (isUrl : Bool) (position : String)
  | divider
  deriving DecidableEq

/-- The type field carried by a Plick element. -/
def plickTypeOf : PlickElem → String
  | PlickElem.text _ _ => "text"
  | PlickElem.barCode _ _ _ _ _ => "barCode"
  | PlickElem.qrCode _ _ _ _ _ => "qrCode"
  | PlickElem.image _ _ _ => "image"
  | PlickElem.divider => "divider"

/-- One entry of the mapper input array: either an invalid object (null, or a
type field that is not a string) or a command object. -/
inductive CmdObj
  | badObj
  | obj (c : Cmd)
  deriving DecidableEq

/-- The mapper input: mapNTPCommandsToPlickData first checks
Array.isArray(ntpCommands). -/
inductive PlickInput
  | notArray
  | arr (cmds : List CmdObj)
  deriving DecidableEq

/-- Embeds "cmd.style?.includes(f)" (undefined style gives false). -/
def plickStyleHas (c : Cmd) (f : String) : Bool :=
  match c.style with
  | some s => strIncludes s f
  | none => false

/-- Embeds the textAlign derivation from cmd.align?.toLowerCase(). -/
def plickAlignOf (c : Cmd) : String :=
  match c.align.map strLower with
  | some al =>
      if al == "ct" || al == "center" then "center"
      else if al == "rt" || al == "right" then "right"
      else "left"
  | none => "left"

/-- Embeds the size-to-fontSize bucket table (w.r.t. w = size[0] || 1 and
h = size[1] || w): 22px when both at least 2, 20px when only the height,
15px when only the width, else the 12px default. -/
def plickFontSizeOf (c : Cmd) : String :=
  match c.size with
  | some l =>
      if l.length > 0 then
        let w : Int := match l.head? with
          | some v => if v == 0 then 1 else v
          | none => 1
        let h : Int := match l.get? 1 with
          | some v => if v == 0 then w else v
          | none => w
        if w ≥ 2 ∧ h ≥ 2 then "22px"
        else if h ≥ 2 then "20px"
        else if w ≥ 2 then "15px"
        else "12px"
      else "12px"
  | none => "12px"

/-- The per-command style object (ntpToPlickFormatter.js, lines 38-64). -/
def plickStyleOf (c : Cmd) : PlickStyle :=
  { fontWeight := some (if plickStyleHas c "B" then "bold" else "normal"),
    textDecoration :=
      some (if plickStyleHas c "U" then "underline" else "none"),
    textAlign := some (plickAlignOf c),
    fontSize := some (plickFontSizeOf c) }

/-- Style of the blank spacer lines emitted by a feed command. -/
def feedSpacerStyle : PlickStyle := { fontSize := some "12px" }

/-- Style of the tablecustom placeholder notice. -/
def tableNoteStyle : PlickStyle := { fontSize := some "10px" }

/-- Style of a rendered table row. -/
def tableRowStyle : PlickStyle :=
  { fontSize := some "10px", textAlign := some "left" }

/-- Style of the end-of-sequence line-buffer flush. -/
def finalFlushStyle : PlickStyle :=
  { textAlign := some "left", fontSize := some "12px" }

/-- Style of the unsupported-command placeholder. -/
def unsupportedStyle : PlickStyle :=
  { fontSize := some "10px", textAlign := some "left" }

/-- Embeds "String(cmd.content || cmd.text || cmd.value || \"\")" as used by
the Plick mapper text cases. -/
def content3P (c : Cmd) : String :=
  jsSelect3 c.content c.text c.value

/-- Line-buffer flush: one text element when the buffer is non-empty. -/
def plickFlush (buf : String) (st : PlickStyle) : List PlickElem :=
  if buf != "" then [PlickElem.text buf (some st)] else []

/-- Row join with " | " separators (kernel-reducible Array.prototype.join). -/
def strJoinSep (sep : String) : List String → String
  | [] => ""
  | [s] => s
  | s :: rest => s ++ sep ++ strJoinSep sep rest

/-- First n characters (the substring(0, n) preview; JSON escaping of the
stringified content is elided, no claim exercises it). -/
def strTake (s : String) (n : Nat) : String :=
  ⟨s.data.take n⟩

/-- Embeds "JSON.stringify(content)?.substring(0, 100)". -/
def jsonPreview (s : String) : String :=
  strTake ("\x22" ++ s ++ "\x22") 100

/-- Embeds the "correctionLevel" computation: the upper-cased correction when
it is one of L/M/Q/H, else "M"; String(undefined) upper-cases to
"UNDEFINED". -/
def plickCorrOf (c : Cmd) : String :=
  let u := match c.correction with
    | some s => strUpper s
    | none => "UNDEFINED"
  if u == "L" || u == "M" || u == "Q" || u == "H" then u else "M"

/-- Block-level emission of the default switch group of the Plick mapper
(barcode / qr / image / imagebuffer / drawline / tablecustom / raw / unknown),
after the line buffer was flushed. ty is the original type string, st the
derived style of this command. -/
def plickBlockElems (c : Cmd) (ty : String) (st : PlickStyle) :
    List PlickElem :=
  if strLower ty == "barcode" then
    [PlickElem.barCode (jsSelectU c.content c.value) (jsOrInt c.height 40)
      (jsOrInt c.width 2)
      (match c.hriPos with
       | none => true
       | some v => decide (v > 0))
      (plickAlignOf c)]
  else if strLower ty == "qr" then
    [PlickElem.qrCode (jsSelectU c.content c.value)
      ((jsOrInt c.cellSize 3) * 20) ((jsOrInt c.cellSize 3) * 20)
      (plickAlignOf c) (plickCorrOf c)]
  else if strLower ty == "image" then
    (if jsTruthyS c.path then
      [PlickElem.image (c.path.getD "") false (plickAlignOf c)]
     else [PlickElem.text "[Image path missing]" (some st)])
  else if strLower ty == "imagebuffer" then
    (if jsTruthyS c.buffer then
      [PlickElem.image ("data:image/png;base64," ++ c.buffer.getD "") true
        (plickAlignOf c)]
     else [PlickElem.text "[Image buffer missing]" (some st)])
  else if strLower ty == "drawline" then [PlickElem.divider]
  else if strLower ty == "tablecustom" then
    PlickElem.text
        "[NTP TableCustom complex: mapping to Plick Table TBD. Raw data attempt:]"
        (some tableNoteStyle) ::
      (match c.data with
       | some rows =>
           rows.map
             (fun row => PlickElem.text (strJoinSep " | " row)
               (some tableRowStyle))
       | none => [])
  else if strLower ty == "raw" then
    [PlickElem.text "[RAW NTP command not supported by Plick EPP]" (some st)]
  else
    [PlickElem.text
      ("[Unsupported NTP command: " ++ ty ++ " - Content: " ++
        jsonPreview (content3P c) ++ "]")
      (some unsupportedStyle)]

/-- The command loop of mapNTPCommandsToPlickData with the running line
buffer, including the end-of-sequence flush (lines 25-262 of
ntpToPlickFormatter.js). -/
def mapPlickGo (buf : String) : List CmdObj → List PlickElem
  | [] =>
      if buf != "" then [PlickElem.text buf (some finalFlushStyle)] else []
  | CmdObj.badObj :: rest =>
      PlickElem.text "[Error: Invalid command object in template]" none ::
        mapPlickGo buf rest
  | CmdObj.obj c :: rest =>
      match c.type with
      | none =>
          PlickElem.text "[Error: Invalid command object in template]" none ::
            mapPlickGo buf rest
      | some ty =>
          let st := plickStyleOf c
          if strLower ty == "text" || strLower ty == "print" then
            mapPlickGo (buf ++ content3P c) rest
          else if strLower ty == "println" then
            (if buf != "" then
              [PlickElem.text (buf ++ content3P c) (some st)]
             else [PlickElem.text (content3P c) (some st)]) ++
              mapPlickGo "" rest
          else if strLower ty == "feed" then
            plickFlush buf st ++
              List.replicate (jsOrInt c.lines 1).toNat
                (PlickElem.text " " (some feedSpacerStyle)) ++
              mapPlickGo "" rest
          else if strLower ty == "cut" then plickFlush buf st ++ mapPlickGo "" rest
          else if strLower ty == "setstyles" || strLower ty == "resetstyles" ||
              strLower ty == "align" then
            plickFlush buf st ++ mapPlickGo "" rest
          else plickFlush buf st ++ plickBlockElems c ty st ++ mapPlickGo "" rest

/-- The empty-result padding (lines 264-278): a warning element when commands
were given but nothing was produced, an info element for the empty list. -/
def padPlick (cmds : List CmdObj) (base : List PlickElem) : List PlickElem :=
  if base.isEmpty && !cmds.isEmpty then
    [PlickElem.text
      "[Warning: No Plick commands generated. Template might be empty or use only unmappable NTP types.]"
      none]
  else if base.isEmpty && cmds.isEmpty then
    [PlickElem.text "[Info: Empty template processed.]" none]
  else base

/-- The structured-payload mapper mapNTPCommandsToPlickData
(src/formatters/ntpToPlickFormatter.js, lines 5-297). The final validation
pass keeps every element whose type field is a string; in this typed model
every element carries one of the five type strings, so the pass is the
identity and the fatal-error branch is unreachable. -/
def mapNTPCommandsToPlickData : PlickInput → List PlickElem
  | PlickInput.notArray =>
      [PlickElem.text "[Error: Invalid template commands input - not an array]"
        none]
  | PlickInput.arr cmds => padPlick cmds (mapPlickGo "" cmds)

/-- A Text command with the given content. -/
def mkTextCmd (s : String) : Cmd :=
  { type := some "text", content := some s }

/-- A Text command object of the mapper input. -/
def mkTextObj (s : String) : CmdObj :=
  CmdObj.obj (mkTextCmd s)

/-- A bare println entry: a line break carrying no content. -/
def lineBreakCmd : Cmd := { type := some "println" }

/-- The line-break command object. -/
def lineBreakObj : CmdObj := CmdObj.obj lineBreakCmd

/-- A drawline (block-level rule) command object. -/
def drawLineRuleObj : CmdObj := CmdObj.obj { type := some "drawline" }

/-- The barcode entry of the coalescing example. -/
def barcodeExObj : CmdObj :=
  CmdObj.obj { type := some "barcode", content := some "123" }

/-- The style derived for a command without align/style/size fields. -/
def plainPlickStyle : PlickStyle :=
  { fontWeight := some "normal", textDecoration := some "none",
    textAlign := some "left", fontSize := some "12px" }

/-- Concatenation of a run of text contents. -/
def strConcat : List String → String
  | [] => ""
  | s :: rest => s ++ strConcat rest

/-- Whitespace trim on the character list (kernel-reducible trim). -/
def strTrim (s : String) : String :=
  ⟨((s.data.dropWhile Char.isWhitespace).reverse.dropWhile
      Char.isWhitespace).reverse⟩

/-- Kernel-reducible startsWith on character lists. -/
def strStartsWith (s p : String) : Bool :=
  charListHasPrefix p.data s.data

/-- Interpolation of a possibly-undefined string, as a JS template literal
renders it. -/
def optUndef (o : Option String) : String :=
  match o with
  | some s => s
  | none => "undefined"

/-- Interpolation of a possibly-undefined number. -/
def optUndefI (o : Option Int) : String :=
  match o with
  | some i => toString i
  | none => "undefined"

/-- Embeds "a = a || b" enrichment on optional string fields. -/
def jsOrOptS (a b : Option String) : Option String :=
  if jsTruthyS a then a else b

/-- Embeds "a = a || b" enrichment on optional numeric fields. -/
def jsOrOptI (a b : Option Int) : Option Int :=
  if jsTruthyI a then a else b

/-- The mDNS TXT record, reduced to the one field the merge logic reads. -/
structure TxtRec where
  adminurl : Option String := none
  deriving DecidableEq

/-- Embeds "a = a || b" enrichment on optional txt-record fields (an object is
always truthy). -/
def jsOrOptT (a b : Option TxtRec) : Option TxtRec :=
  if a.isSome then a else b

/-- A printer record as built by the discovery mechanisms and consumed by the
resolver, the prober and the dispatcher. The type field is the legacy
discriminator of electron-main.js ("electron_os" / "lan_mdns"); connectionType
is the discriminator of the print-discovery.js revisions. -/
structure PrinterRec where
  id : String := ""
  name : String := ""
  osName : Option String := none
  type : Option String := none
  connectionType : Option String := none
  status : Option String := none
  description : Option String := none
  isDefault : Bool := false
  isVirtual : Bool := false
  ip : Option String := none
  port : Option Int := none
  host : Option String := none
  txt : Option TxtRec := none
  discoveryMethod : Option String := none
  vid : Option Nat := none
  pid : Option Nat := none
  manufacturer : Option String := none
  product : Option String := none
  serialNumber : Option String := none
  deriving DecidableEq

/-- Environment of one testPrinterConnection call: whether the Plick library
loaded, and the outcome of the PosPrinter.print test call (the error value is
the message of the thrown exception). -/
structure ProbeEnv where
  plickAvailable : Bool := true
  plickPrint : Except String Unit := Except.ok ()

/-- The connection prober testPrinterConnection (src/print-discovery.js,
lines 260-363). Every branch returns a shallow copy of the input record with
only status replaced. -/
def testPrinterConnection (env : ProbeEnv) (cfg : PrinterRec) : PrinterRec :=
  if !env.plickAvailable then
    { cfg with status := some "Error (Plick lib unavailable)" }
  else if cfg.isVirtual || cfg.connectionType == some "VIRTUAL" then
    { cfg with status := some "Ready (Virtual)" }
  else if cfg.connectionType == some "OS_PLICK" ||
      (cfg.connectionType == some "MDNS_LAN" && jsTruthyS cfg.osName) then
    match env.plickPrint with
    | Except.ok _ => { cfg with status := some "Connected (Plick Test OK)" }
    | Except.error msg =>
        { cfg with status := some ("Error (Plick Test: " ++
            (if msg == "" then "Unknown Plick Error" else strTake msg 60) ++
            ")") }
  else if cfg.connectionType == some "MDNS_LAN" && jsTruthyS cfg.ip &&
      jsTruthyI cfg.port then
    { cfg with status := some "Discovered (mDNS - Test via direct TCP needed)" }
  else if cfg.connectionType == some "RAW_USB" then
    { cfg with status := some "Discovered (RAW_USB - Test Manually)" }
  else
    { cfg with status := some (if jsTruthyS cfg.status then cfg.status.getD ""
        else "Unknown (Test Skipped)") }

/-- An mDNS service response as delivered by a bonjour browser. -/
structure MdnsService where
  name : String := ""
  port : Int := 0
  addresses : List String := []
  host : Option String := none
  txt : Option TxtRec := none
  stype : String := ""
  deriving DecidableEq

/-- One queried service type with its display label. -/
structure ServiceQuery where
  qtype : String := ""
  qname : String := ""
  deriving DecidableEq

/-- The fixed set of service types discoverLanPrintersViaMDNS browses
(src/print-discovery.js, lines 189-199). -/
def serviceTypesToQuery : List ServiceQuery :=
  [⟨"pdl-datastream", "PDL Stream"⟩, ⟨"ipp", "IPP"⟩, ⟨"ipps", "IPPS"⟩,
   ⟨"printer", "LPR/LPD (Port 515)"⟩, ⟨"airprint", "AirPrint"⟩]

/-- The per-browser port filters (lines 203-227): the generic printer type
must advertise port 515; pdl-datastream must advertise a conventional raw
port unless the service name contains "printer". -/
def browserAccepts (st : ServiceQuery) (svc : MdnsService) : Bool :=
  if st.qtype == "printer" && svc.port != 515 then false
  else if st.qtype == "pdl-datastream" &&
      !(svc.port == 9100 || svc.port == 9101 || svc.port == 9102) &&
      strIncludes (strLower svc.name) "printer" then true
  else if st.qtype == "pdl-datastream" &&
      !(svc.port == 9100 || svc.port == 9101 || svc.port == 9102) then false
  else true

/-- The IPv4-preferring address selection chain (lines 142-154). -/
def pickIp (addresses : List String) : Option String :=
  match addresses.find? (fun a => strIncludes a "." &&
      !(strStartsWith a "fe80:") && !(strStartsWith a "127.") &&
      !(strStartsWith a "169.254.")) with
  | some a => some a
  | none =>
      match addresses.find? (fun a => strIncludes a "." &&
          !(strStartsWith a "fe80:")) with
      | some a => some a
      | none =>
          match addresses.find? (fun a => !(strStartsWith a "fe80:")) with
          | some a => some a
          | none => addresses.head?

/-- Sanitizes an ip for the printer id: [.:%] replaced by underscores. -/
def sanitizeIp (s : String) : String :=
  ⟨s.data.map (fun ch => if ch == '.' || ch == ':' || ch == '%' then '_' else ch)⟩

/-- Sanitizes a discovery-method label: non-word characters replaced. -/
def sanitizeMethod (s : String) : String :=
  ⟨s.data.map (fun ch => if ch.isAlphanum || ch == '_' then ch else '_')⟩

/-- Removes one trailing dot (the replace of the /\.$/ pattern). -/
def stripTrailingDot (s : String) : String :=
  if s.data.getLast? == some '.' then ⟨s.data.dropLast⟩ else s

/-- The host part of the mDNS printer id; an undefined host interpolates as
"undefined". -/
def mdnsHostPart (h : Option String) : String :=
  match h with
  | some s => stripTrailingDot s
  | none => "undefined"

/-- The derived mDNS printer id (lines 160-165). -/
def mdnsPrinterId (svc : MdnsService) (ip : String) (method : String) :
    String :=
  "lan_mdns-" ++ mdnsHostPart svc.host ++ "-" ++ sanitizeIp ip ++ "-" ++
    toString svc.port ++ "-" ++ sanitizeMethod method

/-- The record pushed for a newly seen mDNS service (lines 167-186; the JSON
dump of the txt record inside the description is elided). -/
def mdnsRecordOf (svc : MdnsService) (ip : String) (method : String)
    (printerId : String) : PrinterRec :=
  { id := printerId,
    name := svc.name ++ " (" ++ method ++ ") @ " ++ ip ++ ":" ++
      toString svc.port,
    osName := none,
    connectionType := some "MDNS_LAN",
    ip := some ip,
    port := some svc.port,
    status := some "Discovered (mDNS)",
    description := some ("Host: " ++ optUndef svc.host ++ ", Type: " ++
      svc.stype),
    host := svc.host,
    txt := svc.txt,
    discoveryMethod := some method,
    isVirtual := false }

/-- The body of handleService after the address selection: the empty-ip
guard, the per-scan dedupe by id, and the push of the new record. -/
def handleServiceIp (lanPrinters : List PrinterRec) (method : String)
    (svc : MdnsService) : Option String → List PrinterRec
  | none => lanPrinters
  | some ip =>
      if ip == "" then lanPrinters
      else if lanPrinters.any
          (fun pr => pr.id == mdnsPrinterId svc ip method) then lanPrinters
      else
        lanPrinters ++
          [mdnsRecordOf svc ip method (mdnsPrinterId svc ip method)]

/-- handleService (lines 130-187): guards, address selection, id derivation,
and the per-scan dedupe by id. -/
def handleService (lanPrinters : List PrinterRec) (method : String)
    (svc : MdnsService) : List PrinterRec :=
  if svc.name == "" || svc.port == 0 || svc.addresses.isEmpty then lanPrinters
  else handleServiceIp lanPrinters method svc (pickIp svc.addresses)

/-- One service response observed by one browser during the scan window. -/
structure BrowseEvent where
  query : ServiceQuery := {}
  svc : MdnsService := {}
  deriving DecidableEq

/-- The collection loop of one mDNS scan: browser filter, then
handleService. -/
def mdnsCollect (events : List BrowseEvent) : List PrinterRec :=
  events.foldl
    (fun acc ev =>
      if browserAccepts ev.query ev.svc then
        handleService acc ev.query.qname ev.svc
      else acc) []

/-- discoverLanPrintersViaMDNS (src/print-discovery.js, lines 119-257): the
promise only ever resolves with the collected list; a browse failure is
logged and contributes no services. -/
def discoverLanPrintersViaMDNS (browse : Except String (List BrowseEvent)) :
    List PrinterRec :=
  match browse with
  | Except.error _ => []
  | Except.ok events => mdnsCollect events

/-- A raw printer object returned by webContents.getPrintersAsync, with the
option fields the discovery code reads. -/
structure ElectronPrinterRaw where
  name : String := ""
  displayName : Option String := none
  description : Option String := none
  status : Option Int := none
  isDefault : Bool := false
  makeAndModel : Option String := none
  printerType : Option String := none
  stateMessage : Option String := none
  deriving DecidableEq

/-- Sanitizes an OS printer name for the record id: [^\w-] replaced. -/
def sanitizeId (s : String) : String :=
  ⟨s.data.map (fun ch =>
    if ch.isAlphanum || ch == '_' || ch == '-' then ch else '_')⟩

/-- The virtual-printer heuristic of discoverOsPrinters
(src/print-discovery.js, lines 59-71). -/
def osIsVirtual (p : ElectronPrinterRaw) : Bool :=
  strIncludes (strLower p.name) "pdf" ||
  strIncludes (strLower p.name) "onenote" ||
  strIncludes (strLower p.name) "xps" ||
  strIncludes (strLower p.name) "microsoft print to pdf" ||
  strIncludes (strLower p.name) "save to onenote" ||
  strIncludes (strLower p.name) "xps document writer" ||
  strIncludes (strLower (p.description.getD "")) "pdf" ||
  (match p.makeAndModel with
   | some s => strIncludes (strLower s) "pdf"
   | none => false) ||
  (match p.printerType with
   | some s => strIncludes s "PRINT_TO_FILE"
   | none => false)

/-- The status text derivation of discoverOsPrinters (lines 75-93). -/
def osStatusOf (p : ElectronPrinterRaw) (isVirt : Bool) : String :=
  match p.status with
  | none => "Unknown (Electron)"
  | some st =>
      let base := if st == 3 then "Ready (Electron)"
        else if st == 4 then "Printing (Electron)"
        else if st == 0 && !isVirt then "Ready/Idle (Electron)"
        else "Electron Status Code: " ++ toString st
      if jsTruthyS p.stateMessage then base ++ " - " ++ p.stateMessage.getD ""
      else base

/-- One record of discoverOsPrinters (lines 95-107; the Date.now() suffix of
the fallback id for a nameless printer is elided). -/
def mkOsPrinterRec (p : ElectronPrinterRaw) : PrinterRec :=
  let isVirt := osIsVirtual p
  { id := "electron_os-" ++
      sanitizeId (if p.name != "" then p.name else "UnknownOSPrinter"),
    name := match p.displayName with
      | some d => if d != "" then d else p.name
      | none => p.name,
    osName := some p.name,
    connectionType := some (if isVirt then "VIRTUAL" else "OS_PLICK"),
    status := some (osStatusOf p isVirt),
    description := some (if jsTruthyS p.description then p.description.getD ""
      else p.name),
    isDefault := p.isDefault,
    isVirtual := isVirt }

/-- discoverOsPrinters (src/print-discovery.js, lines 37-117): missing
webContents yields an empty list; an exception из getPrintersAsync is caught
locally and yields the (empty) accumulated list. -/
def discoverOsPrinters (webContentsOk : Bool)
    (raw : Except String (List ElectronPrinterRaw)) : List PrinterRec :=
  if !webContentsOk then []
  else
    match raw with
    | Except.error _ => []
    | Except.ok l => l.map mkOsPrinterRec

/-- The fixed allow-list of receipt-printer USB vendor ids
(src/unnamed/part_008, lines 656-664). -/
def knownPosPrinterVids : List Nat :=
  [0x04b8, 0x0519, 0x0dd4, 0x0483, 0x1fc9, 0x0fe6]

/-- A USB device as enumerated by the usb package; the descriptor fields are
the best-effort string-descriptor reads (none = open or read failed). -/
structure UsbDeviceRaw where
  vid : Nat := 0
  pid : Nat := 0
  manufacturer : Option String := none
  product : Option String := none
  serial : Option String := none
  deriving DecidableEq

/-- A lowercase hex digit. -/
def hexDigit (n : Nat) : Char :=
  if n < 10 then Char.ofNat (48 + n) else Char.ofNat (87 + n)

/-- Hex digits of n, most significant first, with structural fuel. -/
def natToHexAux : Nat → Nat → List Char
  | 0, _ => []
  | fuel + 1, n => if n == 0 then [] else
      natToHexAux fuel (n / 16) ++ [hexDigit (n % 16)]

/-- The unpadded lowercase hex rendering of toString(16). -/
def natToHex (n : Nat) : String :=
  if n == 0 then "0" else ⟨natToHexAux 8 n⟩

/-- The 4-padded hex rendering of toString(16).padStart(4, "0"). -/
def hex4 (n : Nat) : String :=
  ⟨[hexDigit (n / 4096 % 16), hexDigit (n / 256 % 16), hexDigit (n / 16 % 16),
    hexDigit (n % 16)]⟩

/-- The record built for a likely raw-USB printer (part_008, lines 718-775):
descriptor reads fall back to the defaults on failure. -/
def mkRawUsbRec (d : UsbDeviceRaw) : PrinterRec :=
  let manufacturer := match d.manufacturer with
    | some s => if s != "" then s else "Unknown"
    | none => "Unknown"
  let product := match d.product with
    | some s => if s != "" then s else
        "USB Printer (VID:0x" ++ hex4 d.vid ++ " PID:0x" ++ hex4 d.pid ++ ")"
    | none =>
        "USB Printer (VID:0x" ++ hex4 d.vid ++ " PID:0x" ++ hex4 d.pid ++ ")"
  let serial := match d.serial with
    | some s => if s != "" then s else "N/A"
    | none => "N/A"
  { id := "raw_usb_node-" ++ natToHex d.vid ++ "-" ++ natToHex d.pid,
    name := product ++ " (S/N: " ++ serial ++ ", Manuf: " ++ manufacturer ++
      ")",
    connectionType := some "RAW_USB",
    status := some "Discovered (Raw USB via node-usb)",
    vid := some d.vid,
    pid := some d.pid,
    manufacturer := some manufacturer,
    product := some product,
    serialNumber := some serial,
    isVirtual := false }

/-- discoverRawUsbDevicesWithNodeUsb (part_008, lines 666-797): the bus scan
is wrapped in its own try/catch (an enumeration failure yields the
accumulated, here empty, list), and only devices whose vendor id is on the
allow-list produce candidates. -/
def discoverRawUsbDevicesWithNodeUsb
    (raw : Except String (List UsbDeviceRaw)) : List PrinterRec :=
  match raw with
  | Except.error _ => []
  | Except.ok devices =>
      (devices.filter (fun d => knownPosPrinterVids.contains d.vid)).map
        mkRawUsbRec

/-- The candidate concatenation of one discovery cycle when each mechanism is
invoked through its locally-catching function (the revision of
performFullDiscoveryAndTest in src/unnamed/part_001 that calls
discoverOsPrinters, plus the raw-USB step of its sibling revision). -/
def collectDiscoveryCandidates (webContentsOk : Bool)
    (osR : Except String (List ElectronPrinterRaw))
    (usbR : Except String (List UsbDeviceRaw))
    (browse : Except String (List BrowseEvent)) : List PrinterRec :=
  discoverOsPrinters webContentsOk osR ++
    discoverRawUsbDevicesWithNodeUsb usbR ++
    discoverLanPrintersViaMDNS browse

/-- The first word of an advertised name: the characters before the first
space (name.split(" ")[0]). -/
def firstWord (s : String) : String :=
  ⟨s.data.takeWhile (fun ch => ch != ' ')⟩

/-- The mDNS-to-OS identification heuristic of the merging revision of
performFullDiscoveryAndTest (src/unnamed/part_001, lines 481-492): an
OS_PLICK record matches an mDNS candidate when its name contains the first
word of the advertised name, or its description contains the admin url of the
txt record. -/
def matchesOsPrinter (osP p : PrinterRec) : Bool :=
  osP.connectionType == some "OS_PLICK" &&
    (strIncludes (strLower osP.name) (strLower (firstWord p.name)) ||
      (match p.txt with
       | some t =>
           match t.adminurl with
           | some u =>
               u != "" &&
                 strIncludes (strLower (osP.description.getD "")) (strLower u)
           | none => false
       | none => false))

/-- In-place enrichment of a matched OS record with the mDNS candidate fields
it lacks (part_001, lines 498-504). -/
def enrichOsWithMdns (existing p : PrinterRec) : PrinterRec :=
  { existing with
    ip := jsOrOptS existing.ip p.ip,
    port := jsOrOptI existing.port p.port,
    host := jsOrOptS existing.host p.host,
    txt := jsOrOptT existing.txt p.txt,
    discoveryMethod :=
      if jsTruthyS existing.discoveryMethod then
        some (existing.discoveryMethod.getD "" ++ ", " ++
          optUndef p.discoveryMethod)
      else p.discoveryMethod }

/-- The mDNS aggregation loop of the merging revision (part_001, lines
479-508): the first matching OS record is enriched in place, otherwise the
candidate is appended as a physical printer. -/
def mergeMdnsIntoOs : List PrinterRec → PrinterRec → List PrinterRec
  | [], p => [{ p with isVirtual := false }]
  | osP :: rest, p =>
      if matchesOsPrinter osP p then enrichOsWithMdns osP p :: rest
      else osP :: mergeMdnsIntoOs rest p

/-- The de-duplication key of the merging revision (part_001, lines 521-529):
os:(osName || name) lower-trimmed, mdns:(host lower || ip):port, else the
record id. -/
def dedupKeyR (p : PrinterRec) : String :=
  if p.connectionType == some "OS_PLICK" || p.connectionType == some "VIRTUAL"
  then
    "os:" ++ strTrim (strLower
      (if jsTruthyS p.osName then p.osName.getD "" else p.name))
  else if p.connectionType == some "MDNS_LAN" then
    "mdns:" ++
      (if jsTruthyS (p.host.map strLower) then strLower (p.host.getD "")
       else optUndef p.ip) ++ ":" ++ optUndefI p.port
  else p.id

/-- Lookup in the insertion-ordered map modeled as an association list. -/
def mapFindR (m : List (String × PrinterRec)) (k : String) :
    Option PrinterRec :=
  (m.find? (fun kv => kv.1 == k)).map (fun kv => kv.2)

/-- Map.set: updates the value in place for an existing key (keeping its
insertion position, as a JS Map does) or appends a new binding. -/
def mapSetR (m : List (String × PrinterRec)) (k : String) (v : PrinterRec) :
    List (String × PrinterRec) :=
  if m.any (fun kv => kv.1 == k) then
    m.map (fun kv => if kv.1 == k then (k, v) else kv)
  else m ++ [(k, v)]

/-- Cross-record enrichment used on a key collision in the dedup map
(part_001, lines 541-544 and 554-557). -/
def enrichIpPortHostTxt (a b : PrinterRec) : PrinterRec :=
  { a with
    ip := jsOrOptS a.ip b.ip,
    port := jsOrOptI a.port b.port,
    host := jsOrOptS a.host b.host,
    txt := jsOrOptT a.txt b.txt }

/-- One step of the de-duplication loop of the merging revision (part_001,
lines 517-565): unseen keys insert; an OS record already in the map absorbs a
colliding mDNS record, and an OS record colliding with a stored mDNS record
replaces it after absorbing its fields. -/
def dedupStepR (m : List (String × PrinterRec)) (p : PrinterRec) :
    List (String × PrinterRec) :=
  let k := dedupKeyR p
  match mapFindR m k with
  | none => mapSetR m k p
  | some existing =>
      if (existing.connectionType == some "OS_PLICK" ||
            existing.connectionType == some "VIRTUAL") &&
          p.connectionType == some "MDNS_LAN" then
        mapSetR m k (enrichIpPortHostTxt existing p)
      else if existing.connectionType == some "MDNS_LAN" &&
          (p.connectionType == some "OS_PLICK" ||
            p.connectionType == some "VIRTUAL") then
        mapSetR m k (enrichIpPortHostTxt p existing)
      else m

/-- The de-duplicated registry values in insertion order. -/
def dedupPrinters (cands : List PrinterRec) : List PrinterRec :=
  (cands.foldl dedupStepR []).map (fun kv => kv.2)

/-- The identity-resolution pipeline of the merging revision: OS candidates,
then the mDNS loop with in-place merging, then the dedup map. -/
def resolveRegistry (osPrinters mdnsPrinters : List PrinterRec) :
    List PrinterRec :=
  dedupPrinters (mdnsPrinters.foldl mergeMdnsIntoOs osPrinters)

/-- The virtual-printer heuristic of the canonical electron-main.js cycle
(lines 96-108), a wider keyword list than discoverOsPrinters uses. -/
def mainOsIsVirtual (p : ElectronPrinterRaw) : Bool :=
  strIncludes (strLower p.name) "onenote" ||
  strIncludes (strLower p.name) "pdf" ||
  strIncludes (strLower p.name) "xps" ||
  strIncludes (strLower p.name) "fax" ||
  strIncludes (strLower p.name) "send to" ||
  strIncludes (strLower p.name) "microsoft print to" ||
  strIncludes (strLower p.name) "document writer" ||
  strIncludes (strLower (p.description.getD "")) "onenote" ||
  strIncludes (strLower (p.description.getD "")) "pdf" ||
  strIncludes (strLower (p.description.getD "")) "xps" ||
  strIncludes (strLower (p.description.getD "")) "document writer" ||
  strIncludes (strLower (p.description.getD "")) "fax"

/-- The OS record built inline by the canonical electron-main.js cycle
(lines 118-128). -/
def mkMainOsRec (p : ElectronPrinterRaw) : PrinterRec :=
  { id := "electron_os-" ++ sanitizeId p.name,
    name := p.name,
    osName := some p.name,
    type := some "electron_os",
    status := some (match p.status with
      | some st => if st == 0 then "Ready" else "OS Status: " ++ toString st
      | none => "OS Status: undefined"),
    description := p.description,
    isDefault := p.isDefault,
    isVirtual := mainOsIsVirtual p }

/-- The adaptation the canonical cycle applies to each mDNS record
(lines 142-150). -/
def adaptMdnsMain (p : PrinterRec) : PrinterRec :=
  { p with
    osName := none,
    description := some (if jsTruthyS p.description then p.description.getD ""
      else p.name),
    isDefault := false,
    isVirtual := false }

/-- The canonical de-duplication key (electron-main.js, lines 158-163). -/
def mainDedupKey (p : PrinterRec) : String :=
  if p.type == some "electron_os" then "os:" ++ strTrim (strLower p.name)
  else if p.type == some "lan_mdns" then
    "mdns:" ++ optUndef p.ip ++ ":" ++ optUndefI p.port
  else p.id

/-- One step of the canonical de-duplication loop (lines 165-172): insert
unseen keys; on a collision an electron_os record replaces a record of any
other provenance, and nothing is merged. -/
def mainDedupStep (m : List (String × PrinterRec)) (p : PrinterRec) :
    List (String × PrinterRec) :=
  let k := mainDedupKey p
  match mapFindR m k with
  | none => mapSetR m k p
  | some existing =>
      if p.type == some "electron_os" && existing.type != some "electron_os"
      then mapSetR m k p
      else m

/-- The initial status assignment of the canonical cycle (lines 180-183). -/
def statusInit (p : PrinterRec) : PrinterRec :=
  { p with status := some (if p.isVirtual then "Ready (Virtual)"
      else if jsTruthyS p.status then p.status.getD "" else "Discovered") }

/-- The registry published by the canonical performFullDiscoveryAndTest
(src/electron-main.js, lines 63-239) before connection testing annotates the
physical records: the OS enumeration runs inline inside the cycle-wide try,
so its failure is caught only at cycle level, which clears the whole list
(line 227) and still publishes in the finally block. -/
def performFullDiscoveryAndTest
    (osR : Except String (List ElectronPrinterRaw))
    (browse : Except String (List BrowseEvent)) : List PrinterRec :=
  match osR with
  | Except.error _ => []
  | Except.ok raw =>
      (((raw.map mkMainOsRec ++
          (discoverLanPrintersViaMDNS browse).map adaptMdnsMain).foldl
          mainDedupStep []).map (fun kv => kv.2)).map statusInit

/-- The fuzzy virtual-printer terms of findPrinterConfiguration
(src/services/printService.js, lines 186-193; the "oneNote" entry keeps its
source capitalization and can never match a lower-cased request). -/
def fuzzyTerms : List String :=
  ["onenote", "oneNote", "pdf", "xps", "microsoft print to pdf",
   "save to onenote"]

/-- The exact lookup predicate: case-insensitive equality of the requested
name against the record name or its OS queue name (lines 178-182). -/
def nameMatches (rl : String) (p : PrinterRec) : Bool :=
  strLower p.name == rl ||
    (jsTruthyS p.osName && strLower (p.osName.getD "") == rl)

/-- The fuzzy fallback of findPrinterConfiguration over the lower-cased
request rl (lines 194-221): containment matches preferring non-protected
names, tried only when the request contains a fuzzy virtual term. -/
def findPrinterFuzzy (printers : List PrinterRec) (rl : String) :
    Option PrinterRec :=
  if fuzzyTerms.any (fun term => strIncludes rl term) then
    match printers.find? (fun p => strIncludes (strLower p.name) rl &&
        !(strIncludes (strLower p.name) "protected")) with
    | some p => some p
    | none =>
        match printers.find? (fun p => jsTruthyS p.osName &&
            strIncludes (strLower (p.osName.getD "")) rl &&
            !(strIncludes (strLower (p.osName.getD "")) "protected")) with
        | some p => some p
        | none =>
            match printers.find?
                (fun p => strIncludes (strLower p.name) rl) with
            | some p => some p
            | none =>
                printers.find? (fun p => jsTruthyS p.osName &&
                  strIncludes (strLower (p.osName.getD "")) rl)
  else none

/-- findPrinterConfiguration (src/services/printService.js, lines 174-223):
exact case-insensitive match first, then the fuzzy fallback. -/
def findPrinterConfiguration (printers : List PrinterRec)
    (requestedPrinterName : String) : Option PrinterRec :=
  match printers.find?
      (fun p => nameMatches (strLower requestedPrinterName) p) with
  | some p => some p
  | none => findPrinterFuzzy printers (strLower requestedPrinterName)

/-- Whether any registry record matches the requested name by the exact
case-insensitive comparison alone. -/
def exactNameMatchExists (printers : List PrinterRec) (req : String) : Bool :=
  printers.any (fun p => nameMatches (strLower req) p)

/-- The print-request body fields the lookup stage reads. -/
structure PrintJob where
  printerName : Option String := none
  templateType : Option String := none
  templateDataPresent : Bool := false
  deriving DecidableEq

/-- Outcome of the lookup stage of handlePrintRequest: a thrown validation
error, a thrown not-found error, or progression to template rendering with
the resolved record. -/
inductive PrintLookupOutcome
  | errMissing (msg : String)
  | errNotFound (msg : String)
  | proceed (printer : PrinterRec)
  deriving DecidableEq

/-- The validation and lookup prefix of handlePrintRequest
(src/services/printService.js, lines 225-254). -/
def handlePrintLookup (job : PrintJob) (printers : List PrinterRec) :
    PrintLookupOutcome :=
  if !(jsTruthyS job.printerName) then
    PrintLookupOutcome.errMissing "Missing printerName."
  else if !(jsTruthyS job.templateType) then
    PrintLookupOutcome.errMissing "Missing templateType."
  else if !job.templateDataPresent then
    PrintLookupOutcome.errMissing "Missing templateData."
  else
    match findPrinterConfiguration printers (job.printerName.getD "") with
    | none =>
        PrintLookupOutcome.errNotFound
          ("Printer named " ++ job.printerName.getD "" ++ " not found.")
    | some p => PrintLookupOutcome.proceed p

/-- The error-to-status mapping of the POST /print route
(src/api/routes/printRoutes.js, lines 16-24): 404 when the thrown message
contains "not found", 400 when it contains "Missing", else 500; none on the
success path. -/
def printRouteStatus (o : PrintLookupOutcome) : Option Nat :=
  match o with
  | PrintLookupOutcome.errMissing msg =>
      some (if strIncludes msg "not found" then 404
        else if strIncludes msg "Missing" then 400 else 500)
  | PrintLookupOutcome.errNotFound msg =>
      some (if strIncludes msg "not found" then 404
        else if strIncludes msg "Missing" then 400 else 500)
  | PrintLookupOutcome.proceed _ => none

/-- The OS-queue candidate of the merge example: a record discoverOsPrinters
would build for a queue named "Front Desk". -/
def frontDeskOsRec : PrinterRec :=
  { id := "electron_os-Front_Desk",
    name := "Front Desk",
    osName := some "Front Desk",
    connectionType := some "OS_PLICK",
    status := some "Ready (Electron)",
    description := some "Front Desk" }

/-- The mDNS candidate of the merge example, advertising the same printer at
frontdesk.local:9100. -/
def frontDeskMdnsRec : PrinterRec :=
  { id := "lan_mdns-frontdesk_local-192_168_0_9-9100-PDL_Stream",
    name := "Front Desk Printer (PDL Stream) @ 192.168.0.9:9100",
    connectionType := some "MDNS_LAN",
    ip := some "192.168.0.9",
    port := some 9100,
    host := some "frontdesk.local",
    status := some "Discovered (mDNS)",
    discoveryMethod := some "PDL Stream" }

/-- A virtual printer record. -/
def virtualRec : PrinterRec :=
  { id := "electron_os-Microsoft_Print_to_PDF",
    name := "Microsoft Print to PDF",
    osName := some "Microsoft Print to PDF",
    connectionType := some "VIRTUAL",
    isVirtual := true }

/-- Probe environment with the Plick library missing. -/
def noPlickEnv : ProbeEnv := { plickAvailable := false }

/-- A well-formed pdl-datastream browse event on a conventional port. -/
def goodBrowseEvent : BrowseEvent :=
  { query := ⟨"pdl-datastream", "PDL Stream"⟩,
    svc := { name := "Kitchen Printer", port := 9100,
             addresses := ["192.168.0.7"], host := some "kitchen.local",
             stype := "pdl-datastream" } }

/-- A print job requesting the generic name "pdf". -/
def pdfJob : PrintJob :=
  { printerName := some "pdf", templateType := some "KOT_SAVE",
    templateDataPresent := true }

theorem applyInstrs_append (st : StyleState) (a b : List Instr) :
    applyInstrs st (a ++ b) = applyInstrs (applyInstrs st a) b := by
  simp [applyInstrs, List.foldl_append]

theorem applyInstrs_resetInstrs (st : StyleState) :
    applyInstrs st resetInstrs = defaultStyle := by
  cases st
  rfl

theorem countCuts_append (a b : List Instr) :
    countCuts (a ++ b) = countCuts a + countCuts b := by
  simp [countCuts, List.countP_append]

theorem countCuts_styleFlagInstrs (s : String) :
    countCuts (styleFlagInstrs s) = 0 := by
  unfold styleFlagInstrs
  split_ifs <;> rfl

theorem countCuts_styleInstrsOf (c : Cmd) : countCuts (styleInstrsOf c) = 0 := by
  unfold styleInstrsOf
  split_ifs with h
  · exact countCuts_styleFlagInstrs _
  · rfl

theorem countCuts_sizeInstrsOf (c : Cmd) : countCuts (sizeInstrsOf c) = 0 := by
  unfold sizeInstrsOf
  split <;> rfl

theorem countCuts_alignCaseInstrs (c : Cmd) :
    countCuts (alignCaseInstrs c) = 0 := by
  unfold alignCaseInstrs
  split_ifs <;> rfl

theorem countCuts_initAlignInstrs (o : NtpOptions) :
    countCuts (initAlignInstrs o) = 0 := by
  unfold initAlignInstrs
  split_ifs <;> rfl

theorem countCuts_cons (i : Instr) (l : List Instr) :
    countCuts (i :: l) = countCuts l + (if isCutInstr i then 1 else 0) := by
  simp [countCuts, List.countP_cons]

theorem countCuts_singleton (i : Instr) :
    countCuts [i] = if isCutInstr i then 1 else 0 := by
  simp [countCuts, List.countP_cons, List.countP_nil]

theorem countCuts_nil : countCuts [] = 0 := rfl

theorem countCuts_escposTextInstrs (c : Cmd) :
    countCuts (escposTextInstrs c) = 0 := by
  simp [escposTextInstrs, countCuts_cons, countCuts_append,
    countCuts_styleInstrsOf, countCuts_sizeInstrsOf, countCuts_singleton,
    countCuts_nil, isCutInstr]

theorem countCuts_tcpTextInstrs (c : Cmd) : countCuts (tcpTextInstrs c) = 0 := by
  simp [tcpTextInstrs, countCuts_cons, countCuts_append,
    countCuts_styleInstrsOf, countCuts_sizeInstrsOf, countCuts_singleton,
    countCuts_nil, isCutInstr]

theorem countCuts_tcpPrintlnInstrs (c : Cmd) :
    countCuts (tcpPrintlnInstrs c) = 0 := by
  simp [tcpPrintlnInstrs, countCuts_cons, countCuts_append,
    countCuts_styleInstrsOf, countCuts_sizeInstrsOf, countCuts_singleton,
    countCuts_nil, isCutInstr]

theorem countCuts_imageInstrsOf (c : Cmd) :
    countCuts (imageInstrsOf c) = 0 := by
  unfold imageInstrsOf
  split_ifs <;>
    simp [countCuts_cons, countCuts_singleton, isCutInstr, countCuts]

theorem countCuts_imageBufferInstrsOf (c : Cmd) :
    countCuts (imageBufferInstrsOf c) = 0 := by
  unfold imageBufferInstrsOf
  split_ifs <;>
    simp [countCuts_cons, countCuts_singleton, isCutInstr, countCuts]

theorem countCuts_tableInstrsOf (c : Cmd) :
    countCuts (tableInstrsOf c) = 0 := by
  unfold tableInstrsOf
  split <;> rfl

theorem countCuts_tcpTableInstrsOf (c : Cmd) :
    countCuts (tcpTableInstrsOf c) = 0 := by
  unfold tcpTableInstrsOf
  split <;> rfl

theorem countCuts_cutInstrsOf (c : Cmd) : countCuts (cutInstrsOf c) = 1 := rfl

theorem countCuts_ite (p : Prop) [Decidable p] (a b : List Instr) :
    countCuts (if p then a else b) = if p then countCuts a else countCuts b := by
  split_ifs <;> rfl

theorem countCuts_resetInstrs : countCuts resetInstrs = 0 := rfl

set_option maxHeartbeats 1000000 in
theorem countCuts_escposCmdInstrs (c : Cmd) :
    countCuts (escposCmdInstrs c) =
      (if typeLower c == some "cut" then 1 else 0) := by
  rcases Bool.eq_false_or_eq_true (typeLower c == some "cut") with hcut | hcut
  · have h : typeLower c = some "cut" := by simpa using hcut
    unfold escposCmdInstrs
    rw [h]
    simp [beq_iff_eq, countCuts_cutInstrsOf]
  · unfold escposCmdInstrs
    rw [hcut]
    simp [countCuts_ite, countCuts_escposTextInstrs, countCuts_cutInstrsOf,
      countCuts_alignCaseInstrs, countCuts_append, countCuts_styleInstrsOf,
      countCuts_sizeInstrsOf, countCuts_imageInstrsOf,
      countCuts_imageBufferInstrsOf, countCuts_tableInstrsOf,
      countCuts_singleton, countCuts_nil, countCuts_resetInstrs, isCutInstr,
      barcodeInstrsOf, qrInstrsOf, rawInstrsOf, countCuts_cons]

set_option maxHeartbeats 1000000 in
theorem countCuts_tcpCmdInstrs (c : Cmd) :
    countCuts (tcpCmdInstrs c) =
      (if typeLower c == some "cut" then 1 else 0) := by
  rcases Bool.eq_false_or_eq_true (typeLower c == some "cut") with hcut | hcut
  · have h : typeLower c = some "cut" := by simpa using hcut
    unfold tcpCmdInstrs
    rw [h]
    simp [beq_iff_eq, countCuts_cutInstrsOf]
  · unfold tcpCmdInstrs
    rw [hcut]
    simp [countCuts_ite, countCuts_tcpTextInstrs, countCuts_tcpPrintlnInstrs,
      countCuts_cutInstrsOf, countCuts_alignCaseInstrs, countCuts_append,
      countCuts_styleInstrsOf, countCuts_sizeInstrsOf,
      countCuts_imageInstrsOf, countCuts_imageBufferInstrsOf,
      countCuts_tcpTableInstrsOf, countCuts_singleton, countCuts_nil,
      countCuts_resetInstrs, isCutInstr, barcodeInstrsOf, qrInstrsOf,
      rawInstrsOf, countCuts_cons]

theorem countCuts_escposEntryInstrs (c : Cmd) :
    countCuts (escposEntryInstrs c) =
      (if typeLower c == some "cut" then 1 else 0) := by
  unfold escposEntryInstrs
  rw [countCuts_append, countCuts_escposCmdInstrs]
  split_ifs <;> simp [countCuts_resetInstrs, countCuts_nil]

theorem countCuts_tcpEntryInstrs (c : Cmd) :
    countCuts (tcpEntryInstrs c) =
      (if typeLower c == some "cut" then 1 else 0) := by
  unfold tcpEntryInstrs
  rw [countCuts_append, countCuts_tcpCmdInstrs]
  split_ifs <;> simp [countCuts_resetInstrs, countCuts_nil]

theorem countCuts_escposBody (cmds : List Cmd) :
    countCuts ((cmds.map escposEntryInstrs).flatten) =
      cmds.countP (fun c => typeLower c == some "cut") := by
  induction cmds with
  | nil => rfl
  | cons c l ih =>
      rw [List.map_cons, List.flatten_cons, countCuts_append,
        countCuts_escposEntryInstrs, ih, List.countP_cons]
      simp [Nat.add_comm]

theorem countCuts_tcpBody (cmds : List Cmd) :
    countCuts ((cmds.map tcpEntryInstrs).flatten) =
      cmds.countP (fun c => typeLower c == some "cut") := by
  induction cmds with
  | nil => rfl
  | cons c l ih =>
      rw [List.map_cons, List.flatten_cons, countCuts_append,
        countCuts_tcpEntryInstrs, ih, List.countP_cons]
      simp [Nat.add_comm]

theorem hasCutCmd_false_countP (cmds : List Cmd) (h : hasCutCmd cmds = false) :
    cmds.countP (fun c => typeLower c == some "cut") = 0 := by
  rw [List.countP_eq_zero]
  intro c hc hp
  have ht : hasCutCmd cmds = true := by
    unfold hasCutCmd
    rw [List.any_eq_true]
    exact ⟨c, hc, hp⟩
  rw [h] at ht
  exact Bool.false_ne_true ht

/-- C1, counterexample. The claim asserts that for
[SetStyle(bold), Text("x"), Text("y")] both renderers print "x" in bold.
In the code both renderers run resetStylesNTP before every entry whose type is
not a style command, so the bold set by the SetStyle entry is cleared before
Text("x") is rendered: both "x" and "y" print with bold off, in the buffer
renderer and in the TCP renderer alike. -/
theorem c1_styleResetBoundary_counterexample :
    (renderedTexts defaultStyle
        (generatePrintBufferNTP styleBoundaryCmds {})).map
        (fun p => (p.1, p.2.boldSt)) = [("x", false), ("y", false)] ∧
    (renderedTexts defaultStyle (tcpStream styleBoundaryCmds {})).map
        (fun p => (p.1, p.2.boldSt)) = [("x", false), ("y", false)] := by
  constructor <;> rfl

/-- C1, amended. The style accumulator is reset to the default (left-aligned,
no emphasis, 1x scale) before each entry that is not SetStyle/ResetStyle in
the buffer renderer, and before each entry that is not SetStyle/ResetStyle/
Align in the TCP renderer; consequently emphasis set by a SetStyle entry does
not survive to the next visible entry, and in the example
[SetStyle(bold), Text("x"), Text("y")] both "x" and "y" are rendered with the
default style (not bold) by both renderers. Emphasis reaches a visible entry
only through the style/size/align fields of that entry itself. -/
theorem c1_styleResetBoundary :
    (∀ (cmds : List Cmd) (opts : NtpOptions) (i : Nat) (h : i < cmds.length),
        escposResetCond (cmds.get ⟨i, h⟩) = true →
        escposStyleAtEntry cmds opts i h = defaultStyle) ∧
    (∀ (cmds : List Cmd) (opts : NtpOptions) (i : Nat) (h : i < cmds.length),
        tcpResetCond (cmds.get ⟨i, h⟩) = true →
        tcpStyleAtEntry cmds opts i h = defaultStyle) ∧
    renderedTexts defaultStyle (generatePrintBufferNTP styleBoundaryCmds {}) =
      [("x", defaultStyle), ("y", defaultStyle)] ∧
    renderedTexts defaultStyle (tcpStream styleBoundaryCmds {}) =
      [("x", defaultStyle), ("y", defaultStyle)] := by
  refine ⟨?_, ?_, by rfl, by rfl⟩
  · intro cmds opts i h hc
    unfold escposStyleAtEntry
    simp only [List.get_eq_getElem] at hc
    simp [hc, applyInstrs_append, applyInstrs_resetInstrs]
  · intro cmds opts i h hc
    unfold tcpStyleAtEntry
    simp only [List.get_eq_getElem] at hc
    simp [hc, applyInstrs_append, applyInstrs_resetInstrs]

/-- C1, witness: the general reset property applied to entry 1 (Text("x")) of
the example sequence, in both renderers. -/
theorem c1_styleResetBoundary_witness :
    escposStyleAtEntry styleBoundaryCmds {} 1 (by decide) = defaultStyle ∧
    tcpStyleAtEntry styleBoundaryCmds {} 1 (by decide) = defaultStyle :=
  ⟨c1_styleResetBoundary.1 styleBoundaryCmds {} 1 (by decide) (by decide),
   c1_styleResetBoundary.2.1 styleBoundaryCmds {} 1 (by decide) (by decide)⟩

/-- C2. For a sequence without a cut entry, the buffer renderer output is the
loop output followed by the final style reset and exactly one default partial
cut, and the whole buffer holds exactly one cut instruction; for a sequence
with a cut entry no extra cut is appended and the buffer holds exactly the
cuts of the entries. The same holds for the stream of the TCP renderer. -/
theorem c2_defaultCutInvariant :
    (∀ (cmds : List Cmd) (opts : NtpOptions), hasCutCmd cmds = false →
        generatePrintBufferNTP cmds opts =
          initAlignInstrs opts ++ (cmds.map escposEntryInstrs).flatten ++
            resetInstrs ++ [Instr.cut CutMode.part] ∧
        countCuts (generatePrintBufferNTP cmds opts) = 1) ∧
    (∀ (cmds : List Cmd) (opts : NtpOptions), hasCutCmd cmds = true →
        generatePrintBufferNTP cmds opts =
          initAlignInstrs opts ++ (cmds.map escposEntryInstrs).flatten ++
            resetInstrs ∧
        countCuts (generatePrintBufferNTP cmds opts) =
          cmds.countP (fun c => typeLower c == some "cut")) ∧
    (∀ (env : TcpEnv) (cmds : List Cmd) (cfg : TcpConfig) (opts : NtpOptions)
        (buf : List Instr), printViaTcpIp env cmds cfg opts = Except.ok buf →
        (hasCutCmd cmds = false →
            buf = initAlignInstrs opts ++ (cmds.map tcpEntryInstrs).flatten ++
              resetInstrs ++ [Instr.cut CutMode.part] ∧
            countCuts buf = 1) ∧
        (hasCutCmd cmds = true →
            buf = initAlignInstrs opts ++ (cmds.map tcpEntryInstrs).flatten ++
              resetInstrs ∧
            countCuts buf =
              cmds.countP (fun c => typeLower c == some "cut"))) := by
  have hbufF : ∀ (cmds : List Cmd) (opts : NtpOptions),
      hasCutCmd cmds = false →
      tcpStream cmds opts =
        initAlignInstrs opts ++ (cmds.map tcpEntryInstrs).flatten ++
          resetInstrs ++ [Instr.cut CutMode.part] ∧
      countCuts (tcpStream cmds opts) = 1 := by
    intro cmds opts h
    constructor
    · unfold tcpStream
      rw [h]
      simp
    · unfold tcpStream
      rw [h]
      simp [countCuts_append, countCuts_initAlignInstrs, countCuts_tcpBody,
        hasCutCmd_false_countP cmds h, countCuts_resetInstrs,
        countCuts_singleton, isCutInstr]
  have hbufT : ∀ (cmds : List Cmd) (opts : NtpOptions),
      hasCutCmd cmds = true →
      tcpStream cmds opts =
        initAlignInstrs opts ++ (cmds.map tcpEntryInstrs).flatten ++
          resetInstrs ∧
      countCuts (tcpStream cmds opts) =
        cmds.countP (fun c => typeLower c == some "cut") := by
    intro cmds opts h
    constructor
    · unfold tcpStream
      rw [h]
      simp
    · unfold tcpStream
      rw [h]
      simp [countCuts_append, countCuts_initAlignInstrs, countCuts_tcpBody,
        countCuts_resetInstrs, countCuts_nil]
  refine ⟨?_, ?_, ?_⟩
  · intro cmds opts h
    constructor
    · unfold generatePrintBufferNTP
      rw [h]
      simp
    · unfold generatePrintBufferNTP
      rw [h]
      simp [countCuts_append, countCuts_initAlignInstrs, countCuts_escposBody,
        hasCutCmd_false_countP cmds h, countCuts_resetInstrs,
        countCuts_singleton, isCutInstr]
  · intro cmds opts h
    constructor
    · unfold generatePrintBufferNTP
      rw [h]
      simp
    · unfold generatePrintBufferNTP
      rw [h]
      simp [countCuts_append, countCuts_initAlignInstrs, countCuts_escposBody,
        countCuts_resetInstrs, countCuts_nil]
  · intro env cmds cfg opts buf hok
    have hb : buf = tcpStream cmds opts := by
      unfold printViaTcpIp at hok
      split_ifs at hok
      all_goals simp_all
    subst hb
    exact ⟨fun h => hbufF cmds opts h, fun h => hbufT cmds opts h⟩

/-- C2, witness: the invariant applied to a concrete cut-free sequence, to a
concrete sequence with a cut, and to a concrete successful TCP call. -/
theorem c2_defaultCutInvariant_witness :
    countCuts (generatePrintBufferNTP noCutCmds {}) = 1 ∧
    countCuts (generatePrintBufferNTP withCutCmds {}) =
      withCutCmds.countP (fun c => typeLower c == some "cut") ∧
    countCuts (tcpStream noCutCmds {}) = 1 := by
  refine ⟨(c2_defaultCutInvariant.1 noCutCmds {} (by decide)).2,
    (c2_defaultCutInvariant.2.1 withCutCmds {} (by decide)).2, ?_⟩
  exact ((c2_defaultCutInvariant.2.2 tcpOkEnv noCutCmds tcpOkCfg {}
    (tcpStream noCutCmds {}) rfl).1 (by decide)).2

theorem content3P_mkText (s : String) : content3P (mkTextCmd s) = s := by
  by_cases h : s = ""
  · subst h
    rfl
  · have hb : (s != "") = true := by
      rw [bne_iff_ne]
      exact h
    simp [content3P, mkTextCmd, jsSelect3, jsTruthyS, hb]

theorem mapPlickGo_textRun (ss : List String) (buf : String)
    (rest : List CmdObj) :
    mapPlickGo buf (ss.map mkTextObj ++ rest) =
      mapPlickGo (buf ++ strConcat ss) rest := by
  induction ss generalizing buf with
  | nil => simp [strConcat, String.append_empty]
  | cons s t ih =>
      have hstep : mapPlickGo buf (mkTextObj s :: (t.map mkTextObj ++ rest)) =
          mapPlickGo (buf ++ content3P (mkTextCmd s))
            (t.map mkTextObj ++ rest) := rfl
      rw [List.map_cons, List.cons_append, hstep, content3P_mkText, ih,
        strConcat, String.append_assoc]

/-- C3. Coalescing of the structured-payload mapper: the concrete sequences
[Text("A"), Text("B"), LineBreak] and [Text("A"), Barcode(content "123")]
yield one text element "AB", and "A" flushed before the barcode element,
respectively; in general a run of Text entries only accumulates the line
buffer, a run of Text entries ended by a LineBreak yields exactly one text
element with the concatenated content, and a run of Text entries with
non-empty concatenation ended by a block-level rule entry is flushed into one
text element followed by the block element. -/
theorem c3_plickCoalescing :
    mapNTPCommandsToPlickData
        (PlickInput.arr [mkTextObj "A", mkTextObj "B", lineBreakObj]) =
      [PlickElem.text "AB" (some plainPlickStyle)] ∧
    mapNTPCommandsToPlickData (PlickInput.arr [mkTextObj "A", barcodeExObj]) =
      [PlickElem.text "A" (some plainPlickStyle),
       PlickElem.barCode "123" 40 2 true "left"] ∧
    (∀ (ss : List String) (buf : String) (rest : List CmdObj),
        mapPlickGo buf (ss.map mkTextObj ++ rest) =
          mapPlickGo (buf ++ strConcat ss) rest) ∧
    (∀ ss : List String,
        mapNTPCommandsToPlickData
            (PlickInput.arr (ss.map mkTextObj ++ [lineBreakObj])) =
          [PlickElem.text (strConcat ss) (some plainPlickStyle)]) ∧
    (∀ ss : List String, strConcat ss ≠ "" →
        mapNTPCommandsToPlickData
            (PlickInput.arr (ss.map mkTextObj ++ [drawLineRuleObj])) =
          [PlickElem.text (strConcat ss) (some plainPlickStyle),
           PlickElem.divider]) := by
  refine ⟨by rfl, by rfl, mapPlickGo_textRun, ?_, ?_⟩
  · intro ss
    have hunf : mapNTPCommandsToPlickData
        (PlickInput.arr (ss.map mkTextObj ++ [lineBreakObj])) =
        padPlick (ss.map mkTextObj ++ [lineBreakObj])
          (mapPlickGo "" (ss.map mkTextObj ++ [lineBreakObj])) := rfl
    rw [hunf, mapPlickGo_textRun, String.empty_append]
    by_cases h : strConcat ss = ""
    · rw [h]
      rfl
    · have hb : (strConcat ss != "") = true := by
        rw [bne_iff_ne]
        exact h
      have hstep : mapPlickGo (strConcat ss) [lineBreakObj] =
          (if strConcat ss != "" then
            [PlickElem.text (strConcat ss ++ content3P lineBreakCmd)
              (some (plickStyleOf lineBreakCmd))]
          else [PlickElem.text (content3P lineBreakCmd)
              (some (plickStyleOf lineBreakCmd))]) ++ mapPlickGo "" [] := rfl
      rw [hstep, hb]
      have hc : content3P lineBreakCmd = "" := rfl
      rw [hc, String.append_empty]
      simp +decide [padPlick, plickStyleOf, lineBreakCmd, plickStyleHas,
        plickAlignOf, plickFontSizeOf, plainPlickStyle, mapPlickGo]
  · intro ss h
    have hb : (strConcat ss != "") = true := by
      rw [bne_iff_ne]
      exact h
    have hunf : mapNTPCommandsToPlickData
        (PlickInput.arr (ss.map mkTextObj ++ [drawLineRuleObj])) =
        padPlick (ss.map mkTextObj ++ [drawLineRuleObj])
          (mapPlickGo "" (ss.map mkTextObj ++ [drawLineRuleObj])) := rfl
    rw [hunf, mapPlickGo_textRun, String.empty_append]
    have hstep : mapPlickGo (strConcat ss) [drawLineRuleObj] =
        plickFlush (strConcat ss)
            (plickStyleOf { type := some "drawline" }) ++
          plickBlockElems { type := some "drawline" } "drawline"
            (plickStyleOf { type := some "drawline" }) ++
          mapPlickGo "" [] := rfl
    rw [hstep]
    simp +decide [plickFlush, hb, padPlick, plickBlockElems, plickStyleOf,
      plickStyleHas, plickAlignOf, plickFontSizeOf, plainPlickStyle,
      mapPlickGo]

/-- C3, witness: the flush-before-block property applied to the run ["A"]
followed by a rule entry. -/
theorem c3_plickCoalescing_witness :
    mapNTPCommandsToPlickData
        (PlickInput.arr (["A"].map mkTextObj ++ [drawLineRuleObj])) =
      [PlickElem.text (strConcat ["A"]) (some plainPlickStyle),
       PlickElem.divider] :=
  c3_plickCoalescing.2.2.2.2 ["A"] (by decide)

/-- C9. The mapper returns a non-empty array on every input, including a
non-array input and the empty command list; the degenerate inputs yield the
explicit placeholder text elements of the source, an invalid command object
yields the explicit invalid-command placeholder, and every element of any
output carries one of the five element type strings. -/
theorem c9_plickOutputInvariant :
    (∀ inp : PlickInput, mapNTPCommandsToPlickData inp ≠ []) ∧
    mapNTPCommandsToPlickData PlickInput.notArray =
      [PlickElem.text "[Error: Invalid template commands input - not an array]"
        none] ∧
    mapNTPCommandsToPlickData (PlickInput.arr []) =
      [PlickElem.text "[Info: Empty template processed.]" none] ∧
    mapNTPCommandsToPlickData (PlickInput.arr [CmdObj.badObj]) =
      [PlickElem.text "[Error: Invalid command object in template]" none] ∧
    (∀ (inp : PlickInput) (e : PlickElem), e ∈ mapNTPCommandsToPlickData inp →
        plickTypeOf e ∈ ["text", "barCode", "qrCode", "image", "divider"]) := by
  refine ⟨?_, by rfl, by rfl, by rfl, ?_⟩
  · intro inp
    cases inp with
    | notArray => simp [mapNTPCommandsToPlickData]
    | arr cmds =>
        unfold mapNTPCommandsToPlickData padPlick
        by_cases h1 : (mapPlickGo "" cmds).isEmpty <;>
          by_cases h2 : cmds.isEmpty <;>
            simp_all [List.isEmpty_iff]
  · intro inp e _
    cases e <;> simp [plickTypeOf]

/-- C9, witness: the element-type property applied to the info element
produced for the empty command list. -/
theorem c9_plickOutputInvariant_witness :
    plickTypeOf (PlickElem.text "[Info: Empty template processed.]" none) ∈
      ["text", "barCode", "qrCode", "image", "divider"] :=
  c9_plickOutputInvariant.2.2.2.2 (PlickInput.arr [])
    (PlickElem.text "[Info: Empty template processed.]" none) (by decide)

/-- C4. Merge enrichment in the merging revision of the resolver: when an
mDNS candidate is identified with an OS-queue candidate, the resolved
registry holds exactly one record for them, and that record keeps every field
of the OS candidate while gaining the ip/port/host/txt the OS candidate
lacked from the mDNS candidate. -/
theorem c4_mergeEnrichment :
    (∀ o m : PrinterRec, matchesOsPrinter o m = true →
        resolveRegistry [o] [m] = [enrichOsWithMdns o m]) ∧
    (∀ o m : PrinterRec,
        (enrichOsWithMdns o m).id = o.id ∧
        (enrichOsWithMdns o m).name = o.name ∧
        (enrichOsWithMdns o m).osName = o.osName ∧
        (enrichOsWithMdns o m).connectionType = o.connectionType ∧
        (enrichOsWithMdns o m).isVirtual = o.isVirtual ∧
        (enrichOsWithMdns o m).ip = (if jsTruthyS o.ip then o.ip else m.ip) ∧
        (enrichOsWithMdns o m).port =
          (if jsTruthyI o.port then o.port else m.port) ∧
        (enrichOsWithMdns o m).host =
          (if jsTruthyS o.host then o.host else m.host) ∧
        (enrichOsWithMdns o m).txt =
          (if o.txt.isSome then o.txt else m.txt)) := by
  constructor
  · intro o m hm
    unfold resolveRegistry
    simp only [List.foldl_cons, List.foldl_nil]
    unfold mergeMdnsIntoOs
    rw [hm]
    simp [dedupPrinters, dedupStepR, mapFindR, mapSetR]
  · intro o m
    exact ⟨rfl, rfl, rfl, rfl, rfl, rfl, rfl, rfl, rfl⟩

/-- C4, witness: the Front Desk example — one OS-queue candidate and one
matching mDNS candidate resolve to a single enriched record. -/
theorem c4_mergeEnrichment_witness :
    resolveRegistry [frontDeskOsRec] [frontDeskMdnsRec] =
      [enrichOsWithMdns frontDeskOsRec frontDeskMdnsRec] ∧
    (enrichOsWithMdns frontDeskOsRec frontDeskMdnsRec).osName =
      some "Front Desk" ∧
    (enrichOsWithMdns frontDeskOsRec frontDeskMdnsRec).ip =
      some "192.168.0.9" ∧
    (enrichOsWithMdns frontDeskOsRec frontDeskMdnsRec).port = some 9100 ∧
    (enrichOsWithMdns frontDeskOsRec frontDeskMdnsRec).host =
      some "frontdesk.local" := by
  refine ⟨c4_mergeEnrichment.1 frontDeskOsRec frontDeskMdnsRec (by decide),
    ?_, ?_, ?_, ?_⟩ <;> rfl

/-- C5, counterexample. In the canonical performFullDiscoveryAndTest the OS
enumeration runs inline inside the cycle-wide try: when it throws, the mDNS
candidates (here one well-formed service) are not collected and the published
registry is empty, contradicting "the candidates produced by the other
mechanisms are still collected". -/
theorem c5_failureIsolation_counterexample :
    performFullDiscoveryAndTest (Except.error "getPrintersAsync failed")
      (Except.ok [goodBrowseEvent]) = [] ∧
    discoverLanPrintersViaMDNS (Except.ok [goodBrowseEvent]) ≠ [] := by
  exact ⟨rfl, by decide⟩

/-- C5, amended. Each mechanism function catches its own failures and yields
an empty candidate list (discoverOsPrinters, discoverRawUsbDevicesWithNodeUsb,
and the never-rejecting mDNS scan), and in the candidate collection a failed
mechanism behaves exactly as one that found nothing, the other mechanisms
unaffected; but in the canonical cycle, where OS enumeration is inlined in
the cycle-wide try, an OS failure clears the registry (the cycle still
completes and publishes the empty list), while an mDNS-internal failure
leaves the OS candidates intact. -/
theorem c5_failureIsolation :
    (∀ e, discoverOsPrinters true (Except.error e) = []) ∧
    (∀ e, discoverRawUsbDevicesWithNodeUsb (Except.error e) = []) ∧
    (∀ e, discoverLanPrintersViaMDNS (Except.error e) = []) ∧
    (∀ wOk usbR browse e,
        collectDiscoveryCandidates wOk (Except.error e) usbR browse =
          collectDiscoveryCandidates wOk (Except.ok []) usbR browse) ∧
    (∀ wOk osR browse e,
        collectDiscoveryCandidates wOk osR (Except.error e) browse =
          collectDiscoveryCandidates wOk osR (Except.ok []) browse) ∧
    (∀ wOk osR usbR e,
        collectDiscoveryCandidates wOk osR usbR (Except.error e) =
          collectDiscoveryCandidates wOk osR usbR (Except.ok [])) ∧
    (∀ raw e, performFullDiscoveryAndTest (Except.ok raw) (Except.error e) =
        performFullDiscoveryAndTest (Except.ok raw) (Except.ok [])) ∧
    (∀ e browse, performFullDiscoveryAndTest (Except.error e) browse = []) := by
  refine ⟨fun e => rfl, fun e => rfl, fun e => rfl, ?_, ?_, ?_,
    fun raw e => rfl, fun e browse => rfl⟩
  · intro wOk usbR browse e
    rfl
  · intro wOk osR browse e
    rfl
  · intro wOk osR usbR e
    rfl

/-- C7, counterexample. The Plick-availability guard precedes the virtual
check: with the library unavailable a virtual record is reported with the
library-error status, not "Ready (Virtual)", so the ready-virtual status does
not hold "regardless of any other condition". -/
theorem c7_virtualNeverProbed_counterexample :
    (testPrinterConnection noPlickEnv virtualRec).status =
      some "Error (Plick lib unavailable)" ∧
    ("Error (Plick lib unavailable)" : String) ≠ "Ready (Virtual)" :=
  ⟨rfl, by decide⟩

/-- C7, amended. A virtual record is never probed: its result never depends
on the probe outcome (only on the library-availability flag), and when the
Plick library is loaded it is always returned with status "Ready (Virtual)";
when the library failed to load, every record, virtual included, is returned
unprobed with the library-error status. -/
theorem c7_virtualNeverProbed :
    (∀ (env : ProbeEnv) (cfg : PrinterRec),
        (cfg.isVirtual || cfg.connectionType == some "VIRTUAL") = true →
        env.plickAvailable = true →
        testPrinterConnection env cfg =
          { cfg with status := some "Ready (Virtual)" }) ∧
    (∀ (e1 e2 : ProbeEnv) (cfg : PrinterRec),
        e1.plickAvailable = e2.plickAvailable →
        (cfg.isVirtual || cfg.connectionType == some "VIRTUAL") = true →
        testPrinterConnection e1 cfg = testPrinterConnection e2 cfg) ∧
    (∀ (env : ProbeEnv) (cfg : PrinterRec), env.plickAvailable = false →
        testPrinterConnection env cfg =
          { cfg with status := some "Error (Plick lib unavailable)" }) := by
  refine ⟨?_, ?_, ?_⟩
  · intro env cfg hv hava
    simp [testPrinterConnection, hv, hava]
  · intro e1 e2 cfg hpa hv
    rcases h1 : e1.plickAvailable with _ | _
    · have h2 : e2.plickAvailable = false := by rw [← hpa]; exact h1
      simp [testPrinterConnection, h1, h2]
    · have h2 : e2.plickAvailable = true := by rw [← hpa]; exact h1
      simp [testPrinterConnection, h1, h2, hv]
  · intro env cfg h
    simp [testPrinterConnection, h]

/-- C7, witness: the ready-virtual branch applied to the virtual record in
the default environment, and the unavailable branch applied concretely. -/
theorem c7_virtualNeverProbed_witness :
    testPrinterConnection {} virtualRec =
      { virtualRec with status := some "Ready (Virtual)" } ∧
    testPrinterConnection noPlickEnv virtualRec =
      { virtualRec with status := some "Error (Plick lib unavailable)" } :=
  ⟨c7_virtualNeverProbed.1 {} virtualRec (by decide) rfl,
   c7_virtualNeverProbed.2.2 noPlickEnv virtualRec rfl⟩

/-- C8. The prober is a pure frame over everything but status: for every
environment and every input record the result is the input record with only
the status field replaced (the source returns a fresh spread copy and never
writes the input). -/
theorem c8_proberFrame :
    ∀ (env : ProbeEnv) (cfg : PrinterRec),
      ∃ s, testPrinterConnection env cfg = { cfg with status := s } := by
  intro env cfg
  unfold testPrinterConnection
  split_ifs <;>
    first
      | exact ⟨_, rfl⟩
      | (rcases henv : env.plickPrint with msg | u <;> exact ⟨_, rfl⟩)

theorem handleService_skip_or_append (acc : List PrinterRec) (m : String)
    (svc : MdnsService) :
    handleService acc m svc = acc ∨
      ∃ r, handleService acc m svc = acc ++ [r] ∧
        r.id ∉ acc.map (fun p => p.id) := by
  unfold handleService
  by_cases h1 : (svc.name == "" || svc.port == 0 || svc.addresses.isEmpty) =
      true
  · rw [if_pos h1]
    left
    rfl
  · rw [if_neg h1]
    rcases hip : pickIp svc.addresses with _ | ip
    · left
      rfl
    · simp only [handleServiceIp]
      by_cases h2 : (ip == "") = true
      · rw [if_pos h2]
        left
        rfl
      · rw [if_neg h2]
        by_cases h3 :
            (acc.any fun pr => pr.id == mdnsPrinterId svc ip m) = true
        · rw [if_pos h3]
          left
          rfl
        · rw [if_neg h3]
          right
          refine ⟨mdnsRecordOf svc ip m (mdnsPrinterId svc ip m), rfl, ?_⟩
          intro hmem
          rw [List.mem_map] at hmem
          rcases hmem with ⟨pr, hpr, hid⟩
          have hany : (acc.any fun pr => pr.id == mdnsPrinterId svc ip m) =
              true := by
            rw [List.any_eq_true]
            refine ⟨pr, hpr, ?_⟩
            have hid2 : pr.id = mdnsPrinterId svc ip m := hid
            simp [hid2]
          exact h3 hany

/-- C10. Within one mDNS scan the collected records have pairwise-distinct
ids: the scan list always has nodup ids, because handleService either leaves
the list unchanged (in particular when the derived id is already present) or
appends one record whose id is not yet in the list. -/
theorem c10_mdnsScanIdsNodup :
    (∀ browse : Except String (List BrowseEvent),
        ((discoverLanPrintersViaMDNS browse).map (fun p => p.id)).Nodup) ∧
    (∀ (acc : List PrinterRec) (m : String) (svc : MdnsService),
        handleService acc m svc = acc ∨
          ∃ r, handleService acc m svc = acc ++ [r] ∧
            r.id ∉ acc.map (fun p => p.id)) := by
  constructor
  · have hstep : ∀ (acc : List PrinterRec) (ev : BrowseEvent),
        (acc.map (fun p => p.id)).Nodup →
        (((if browserAccepts ev.query ev.svc then
            handleService acc ev.query.qname ev.svc
          else acc)).map (fun p => p.id)).Nodup := by
      intro acc ev hnd
      split_ifs with hb
      · rcases handleService_skip_or_append acc ev.query.qname ev.svc with
          he | ⟨r, he, hnot⟩
        · rw [he]
          exact hnd
        · rw [he, List.map_append]
          rw [List.nodup_append]
          refine ⟨hnd, by simp, ?_⟩
          intro a ha hmem
          simp only [List.map_cons, List.map_nil, List.mem_singleton] at hmem
          exact hnot (hmem ▸ ha)
      · exact hnd
    have hfold : ∀ (events : List BrowseEvent) (acc : List PrinterRec),
        (acc.map (fun p => p.id)).Nodup →
        ((events.foldl
            (fun acc ev =>
              if browserAccepts ev.query ev.svc then
                handleService acc ev.query.qname ev.svc
              else acc) acc).map (fun p => p.id)).Nodup := by
      intro events
      induction events with
      | nil => intro acc h; exact h
      | cons ev rest ih =>
          intro acc h
          exact ih _ (hstep acc ev h)
    intro browse
    rcases browse with e | events
    · simp [discoverLanPrintersViaMDNS]
    · exact hfold events [] (by simp)
  · exact handleService_skip_or_append

theorem charListIncludes_append_right (needle t : List Char)
    (h : charListIncludes needle t = true) :
    ∀ s : List Char, charListIncludes needle (s ++ t) = true := by
  intro s
  induction s with
  | nil => simpa using h
  | cons c cs ih =>
      simp only [List.cons_append, charListIncludes]
      rw [Bool.or_eq_true]
      right
      exact ih

theorem strIncludes_append_right (s t sub : String)
    (h : strIncludes t sub = true) : strIncludes (s ++ t) sub = true := by
  unfold strIncludes at h ⊢
  rw [String.data_append]
  exact charListIncludes_append_right sub.data t.data h s.data

/-- C6, counterexample. The registry holds one record named
"Microsoft Print to PDF"; the request "pdf" matches no record by the
case-insensitive name/osName comparison, yet the lookup succeeds through the
fuzzy virtual-name fallback and the request proceeds to rendering instead of
failing with the 404 "printer not found" error — so the dispatcher does not
fail exactly when no record matches by name comparison. -/
theorem c6_printerLookup_counterexample :
    exactNameMatchExists [virtualRec] "pdf" = false ∧
    handlePrintLookup pdfJob [virtualRec] =
      PrintLookupOutcome.proceed virtualRec ∧
    printRouteStatus (handlePrintLookup pdfJob [virtualRec]) = none := by
  refine ⟨by decide, by decide, by decide⟩

/-- C6, amended. An exact case-insensitive match on name or osName always
resolves; the route reports 404 exactly when the three body fields are
present and findPrinterConfiguration — the exact match followed by the fuzzy
virtual-term containment fallback — returns nothing; and a resolved lookup
proceeds to rendering with no error status. -/
theorem c6_printerLookup :
    (∀ (printers : List PrinterRec) (req : String),
        exactNameMatchExists printers req = true →
        (findPrinterConfiguration printers req).isSome = true) ∧
    (∀ (job : PrintJob) (printers : List PrinterRec),
        printRouteStatus (handlePrintLookup job printers) = some 404 ↔
          (jsTruthyS job.printerName = true ∧
           jsTruthyS job.templateType = true ∧
           job.templateDataPresent = true ∧
           findPrinterConfiguration printers (job.printerName.getD "") =
             none)) ∧
    (∀ (job : PrintJob) (printers : List PrinterRec) (p : PrinterRec),
        handlePrintLookup job printers = PrintLookupOutcome.proceed p →
        printRouteStatus (handlePrintLookup job printers) = none) := by
  refine ⟨?_, ?_, ?_⟩
  · intro printers req h
    unfold exactNameMatchExists at h
    rw [List.any_eq_true] at h
    unfold findPrinterConfiguration
    rcases hfind : printers.find? (fun p => nameMatches (strLower req) p) with
      _ | p
    · rw [List.find?_eq_none] at hfind
      rcases h with ⟨x, hx, hpx⟩
      exact absurd hpx (hfind x hx)
    · simp
  · intro job printers
    unfold handlePrintLookup
    rcases hpn : jsTruthyS job.printerName with _ | _
    · simp +decide [printRouteStatus]
    · rcases htt : jsTruthyS job.templateType with _ | _
      · simp +decide [printRouteStatus]
      · rcases htd : job.templateDataPresent with _ | _
        · simp +decide [printRouteStatus]
        · rcases hf : findPrinterConfiguration printers
              (job.printerName.getD "") with _ | p
          · have hinc : strIncludes
                ("Printer named " ++ job.printerName.getD "" ++
                  " not found.") "not found" = true :=
              strIncludes_append_right _ _ _ (by decide)
            simp [printRouteStatus, hinc]
          · simp [printRouteStatus]
  · intro job printers p h
    rw [h]
    rfl

/-- C6, witness: the exact-match and proceed properties applied to the
one-record registry under its own full name. -/
theorem c6_printerLookup_witness :
    (findPrinterConfiguration [virtualRec] "Microsoft Print to PDF").isSome =
      true ∧
    printRouteStatus (handlePrintLookup pdfJob [virtualRec]) = none :=
  ⟨c6_printerLookup.1 [virtualRec] "Microsoft Print to PDF" (by decide),
   c6_printerLookup.2.2 pdfJob [virtualRec] virtualRec (by decide)⟩

end PosBridge
